import Mathlib

/-!
# Escape Road — verification of the simulation core

A shallow embedding of the simulation core of the Escape Road browser game
(world tiling, player motion model, boost state, wanted-level controller,
chaser building response, collision engine, fixed-step game loop), translated
from the JavaScript sources, together with theorems settling the frozen
claims about that code.

Conventions of the embedding:
* JavaScript numbers are modelled as exact rationals (`ℚ`).
* `Math.sin` / `Math.cos` / `Math.sqrt` / `Math.PI` are external library
  functions; they enter the model as an explicit `JsMath` record of
  parameters, exactly as the rendering collaborators stay external.
* `Math.random()` results are explicit oracle arguments in `[0,1)`.
* Configuration records (`PLAYER_CONFIG`, `ENEMY_CONFIG`, ...) come from a
  constants module that is referenced but not part of the snapshot; every
  configuration value is therefore a parameter of the model.
-/

namespace EscapeRoad

/-- The external JavaScript math library (`Math.sin` etc.), kept abstract. -/
structure JsMath where
  sin : ℚ → ℚ
  cos : ℚ → ℚ
  sqrt : ℚ → ℚ
  PI : ℚ

/-- `Math.round`: round half toward positive infinity. -/
def jsRound (q : ℚ) : ℤ := ⌊q + 1 / 2⌋

/-- A point, from the `{x, y, z}` object. -/
structure V3 where
  x : ℚ
  y : ℚ
  z : ℚ
deriving DecidableEq, Repr

/-- An axis-aligned bounding box, from `{ min: {x,y,z}, max: {x,y,z} }`. -/
structure AABB where
  min : V3
  max : V3
deriving DecidableEq, Repr

/-- `helpers.js` `checkAABBCollision`: interval overlap on all three axes,
with inclusive comparisons. -/
def checkAABBCollision (box1 box2 : AABB) : Bool :=
  decide (box1.min.x ≤ box2.max.x) && decide (box2.min.x ≤ box1.max.x) &&
  decide (box1.min.y ≤ box2.max.y) && decide (box2.min.y ≤ box1.max.y) &&
  decide (box1.min.z ≤ box2.max.z) && decide (box2.min.z ≤ box1.max.z)

/-- `helpers.js` `clamp`. -/
def clamp (value lo hi : ℚ) : ℚ := Max.max lo (Min.min hi value)

/-- `helpers.js` `lerp`. -/
def lerp (start stop amount : ℚ) : ℚ := start + (stop - start) * amount

/-!
## World Tiling Grid (`City.js`)

A tile owns its ground plane, road markings, buildings and hazards; for the
tiling claims only the grid coordinate and the origin matter (repositioning
translates every owned object by the origin delta).
-/

/-- One tile of the 3×3 endless-world grid. -/
structure Tile where
  gridX : ℤ
  gridZ : ℤ
  originX : ℚ
  originZ : ℚ
deriving DecidableEq, Repr

namespace City

/-- `City._createTile` (grid bookkeeping part). -/
def createTile (tileSize : ℚ) (gridX gridZ : ℤ) : Tile :=
  { gridX := gridX
    gridZ := gridZ
    originX := gridX * tileSize
    originZ := gridZ * tileSize }

/-- `City._createTiles`: the initial 3×3 grid around the origin,
outer loop over gx, inner loop over gz. -/
def createTiles (tileSize : ℚ) : List Tile :=
  ([-1, 0, 1] : List ℤ).flatMap fun gx =>
    ([-1, 0, 1] : List ℤ).map fun gz => createTile tileSize gx gz

/-- `City._repositionTile`: move a tile to a new grid cell; the origin (and
every owned object, translated by the origin delta) follows the new cell. -/
def repositionTile (tileSize : ℚ) (tile : Tile) (newGridX newGridZ : ℤ) : Tile :=
  { tile with
    gridX := newGridX
    gridZ := newGridZ
    originX := newGridX * tileSize
    originZ := newGridZ * tileSize }

/-- `City.update`: recycle every tile that fell outside the 1-tile radius of
the player's current grid cell. -/
def update (tileSize : ℚ) (tiles : List Tile) (playerX playerZ : ℚ) : List Tile :=
  let currentGridX := jsRound (playerX / tileSize)
  let currentGridZ := jsRound (playerZ / tileSize)
  tiles.map fun tile =>
    let dx := tile.gridX - currentGridX
    let dz := tile.gridZ - currentGridZ
    if 1 < |dx| ∨ 1 < |dz| then
      let newGridX := currentGridX + (if 0 < dx then -1 else 1)
      let newGridZ := currentGridZ + (if 0 < dz then -1 else 1)
      repositionTile tileSize tile newGridX newGridZ
    else
      tile

end City

/-- C1: refuted at a concrete input. Starting from the initial 3×3 grid
(`tileSize = 200`) and moving the player one grid cell in +x (position
`(200, 0)`, grid cell `(1, 0)`), a single `City.update` call keeps exactly
9 tiles, all within Chebyshev distance 1 of the player's cell, but the
recycled column is scrambled in z: two tiles land on grid cell `(2, 1)` and
no tile covers `(2, 0)`, so the 9 grid coordinates are neither pairwise
distinct nor a cover of the 3×3 neighborhood. -/
theorem city_update_single_step_breaks_coverage :
    (City.update 200 (City.createTiles 200) 200 0).length = 9 ∧
    (∀ t ∈ City.update 200 (City.createTiles 200) 200 0,
      |t.gridX - 1| ≤ 1 ∧ |t.gridZ - 0| ≤ 1) ∧
    ((City.update 200 (City.createTiles 200) 200 0).map
        (fun t => (t.gridX, t.gridZ)) =
      [(2, 1), (2, 1), (2, -1), (0, -1), (0, 0), (0, 1), (1, -1), (1, 0), (1, 1)]) ∧
    ¬ (City.update 200 (City.createTiles 200) 200 0).Pairwise
        (fun a b => (a.gridX, a.gridZ) ≠ (b.gridX, b.gridZ)) ∧
    ¬ ∃ t ∈ City.update 200 (City.createTiles 200) 200 0,
        t.gridX = 2 ∧ t.gridZ = 0 := by
  have h1 : jsRound (200 / 200) = 1 := by norm_num [jsRound]
  have h0 : jsRound (0 / 200) = 0 := by norm_num [jsRound]
  simp only [City.update, h1, h0]
  decide

/-!
## Player motion model (`PlayerCar` in the `City.js` bundle)
-/

/-- The `PLAYER_CONFIG` values consumed by the player model. -/
structure PlayerConfig where
  AUTO_FORWARD_SPEED : ℚ
  BOOST_MULTIPLIER : ℚ
  ROTATION_SPEED : ℚ
  MAX_HEALTH : ℚ
  BOOST_DURATION : ℚ
  BOOST_COOLDOWN : ℚ
  COLLISION_DAMAGE : ℚ
  WIDTH : ℚ
  LENGTH : ℚ
  HEIGHT : ℚ
deriving DecidableEq, Repr

/-- The per-frame input snapshot. -/
structure PlayerInput where
  forward : Bool
  backward : Bool
  left : Bool
  right : Bool
  boost : Bool
deriving DecidableEq, Repr

/-- The simulation-relevant fields of `PlayerCar` (mesh state omitted). -/
structure Player where
  posX : ℚ
  posY : ℚ
  posZ : ℚ
  velX : ℚ
  velZ : ℚ
  rotation : ℚ
  speed : ℚ
  health : ℚ
  isAlive : Bool
  boostActive : Bool
  boostCooldownRemaining : ℚ
  boostTimeRemaining : ℚ
  distanceTraveled : ℚ
  isFalling : Bool
  fallSpeed : ℚ
deriving DecidableEq, Repr

namespace PlayerCar

/-- The `PlayerCar` constructor state (rotation starts at `Math.PI`). -/
def initial (m : JsMath) (cfg : PlayerConfig) : Player :=
  { posX := 0, posY := 0, posZ := 0
    velX := 0, velZ := 0
    rotation := m.PI
    speed := cfg.AUTO_FORWARD_SPEED
    health := cfg.MAX_HEALTH
    isAlive := true
    boostActive := false
    boostCooldownRemaining := 0
    boostTimeRemaining := 0
    distanceTraveled := 0
    isFalling := false
    fallSpeed := 0 }

/-- `PlayerCar.die` (mesh effects omitted). -/
def die (p : Player) : Player :=
  { p with isAlive := false, speed := 0 }

/-- `PlayerCar.takeDamage`. -/
def takeDamage (amount : ℚ) (p : Player) : Player :=
  let p := { p with health := Max.max 0 (p.health - amount) }
  if p.health ≤ 0 then die p else p

/-- `PlayerCar.startFalling`. -/
def startFalling (p : Player) : Player :=
  if p.isFalling then p
  else { p with isFalling := true, fallSpeed := 0, speed := 0, velX := 0, velZ := 0 }

/-- `PlayerCar.updateFalling` (tumbling mesh rotation omitted). -/
def updateFalling (dt : ℚ) (p : Player) : Player :=
  if ¬p.isFalling then p
  else
    let p := { p with fallSpeed := p.fallSpeed + 30 * dt }
    let p := { p with posY := p.posY - p.fallSpeed * dt }
    if p.posY < -10 then die p else p

/-- `PlayerCar.activateBoost` (emissive mesh effect omitted). -/
def activateBoost (cfg : PlayerConfig) (p : Player) : Player :=
  { p with boostActive := true, boostTimeRemaining := cfg.BOOST_DURATION }

/-- `PlayerCar.deactivateBoost` (emissive mesh effect omitted). -/
def deactivateBoost (cfg : PlayerConfig) (p : Player) : Player :=
  { p with boostActive := false, boostCooldownRemaining := cfg.BOOST_COOLDOWN }

/-- `PlayerCar._updateBoost`. -/
def updateBoost (cfg : PlayerConfig) (input : PlayerInput) (dt : ℚ) (p : Player) : Player :=
  let p :=
    if 0 < p.boostCooldownRemaining then
      { p with boostCooldownRemaining := p.boostCooldownRemaining - dt * 1000 }
    else p
  let p :=
    if input.boost ∧ p.boostCooldownRemaining ≤ 0 ∧ p.boostActive = false then
      activateBoost cfg p
    else p
  if p.boostActive then
    let p := { p with boostTimeRemaining := p.boostTimeRemaining - dt * 1000 }
    if p.boostTimeRemaining ≤ 0 then deactivateBoost cfg p else p
  else p

/-- `PlayerCar._applyInput`: auto-forward speed, boost multiplier, steering,
then the velocity overwrite from the current heading. -/
def applyInput (m : JsMath) (cfg : PlayerConfig) (input : PlayerInput) (dt : ℚ)
    (p : Player) : Player :=
  let speed := cfg.AUTO_FORWARD_SPEED
  let speed := if p.boostActive then cfg.AUTO_FORWARD_SPEED * cfg.BOOST_MULTIPLIER else speed
  let rotation := if input.left then p.rotation + cfg.ROTATION_SPEED * dt * 60 else p.rotation
  let rotation := if input.right then rotation - cfg.ROTATION_SPEED * dt * 60 else rotation
  { p with
    speed := speed
    rotation := rotation
    velX := m.sin rotation * speed
    velZ := m.cos rotation * speed }

/-- `PlayerCar._updatePosition`: plain velocity integration — and nothing
else: the shipped version applies no friction factor and no velocity snap. -/
def updatePosition (dt : ℚ) (p : Player) : Player :=
  { p with posX := p.posX + p.velX * dt, posZ := p.posZ + p.velZ * dt }

/-- `PlayerCar.update` (wheel/mesh animation omitted). -/
def update (m : JsMath) (cfg : PlayerConfig) (input : PlayerInput) (dt : ℚ)
    (p : Player) : Player :=
  if p.isAlive = false then p
  else if p.isFalling then updateFalling dt p
  else
    let p := updateBoost cfg input dt p
    let p := applyInput m cfg input dt p
    let p := updatePosition dt p
    { p with
      distanceTraveled :=
        p.distanceTraveled + m.sqrt (p.velX * p.velX + p.velZ * p.velZ) * dt }

end PlayerCar

/-- The writes the rest of the game applies to the player between motion
ticks: a motion tick itself, damage, the fatal capture, the hazard fall
trigger, a collision knockback impulse (`velocity += k·direction`), and the
building push-out overwrites on either axis. -/
inductive PEvent where
  | tick (input : PlayerInput) (dt : ℚ)
  | damage (amount : ℚ)
  | kill
  | fall
  | impulse (dvx dvz : ℚ)
  | pushX (px vx : ℚ)
  | pushZ (pz vz : ℚ)
deriving DecidableEq, Repr

namespace PlayerCar

/-- Apply one event to the player. -/
def applyEvent (m : JsMath) (cfg : PlayerConfig) (p : Player) : PEvent → Player
  | .tick input dt => update m cfg input dt p
  | .damage amount => takeDamage amount p
  | .kill => die p
  | .fall => startFalling p
  | .impulse dvx dvz => { p with velX := p.velX + dvx, velZ := p.velZ + dvz }
  | .pushX px vx => { p with posX := px, velX := vx }
  | .pushZ pz vz => { p with posZ := pz, velZ := vz }

/-- Run a sequence of events. -/
def run (m : JsMath) (cfg : PlayerConfig) (p : Player) (evs : List PEvent) : Player :=
  evs.foldl (applyEvent m cfg) p

end PlayerCar

/-- Replace every knockback impulse by the zero impulse (the same run with
the collision velocity writes removed). -/
def eraseImpulse : PEvent → PEvent
  | .impulse _ _ => .impulse 0 0
  | e => e

/-- The player state with the planar velocity cleared; two states that are
equal after clearing agree on every field except the velocity. -/
def velocityCleared (p : Player) : Player :=
  { p with velX := 0, velZ := 0 }

/-- Two player states that agree on every field except the velocity. -/
abbrev agreeExceptVelocity (p q : Player) : Prop :=
  velocityCleared p = velocityCleared q

theorem agreeExceptVelocity_refl (p : Player) : agreeExceptVelocity p p := rfl

theorem applyInput_agree (m : JsMath) (cfg : PlayerConfig) (input : PlayerInput)
    (dt : ℚ) (p q : Player) (h : agreeExceptVelocity p q) :
    PlayerCar.applyInput m cfg input dt p = PlayerCar.applyInput m cfg input dt q := by
  cases p
  cases q
  simp only [agreeExceptVelocity, velocityCleared, Player.mk.injEq] at h
  obtain ⟨e1, e2, e3, -, -, e4, e5, e6, e7, e8, e9, e10, e11, e12, e13⟩ := h
  subst e1; subst e2; subst e3; subst e4; subst e5; subst e6; subst e7
  subst e8; subst e9; subst e10; subst e11; subst e12; subst e13
  rfl

theorem updateBoost_agree (cfg : PlayerConfig) (input : PlayerInput) (dt : ℚ)
    (p q : Player) (h : agreeExceptVelocity p q) :
    agreeExceptVelocity (PlayerCar.updateBoost cfg input dt p)
      (PlayerCar.updateBoost cfg input dt q) := by
  cases p
  cases q
  simp only [agreeExceptVelocity, velocityCleared, Player.mk.injEq] at h ⊢
  obtain ⟨e1, e2, e3, -, -, e4, e5, e6, e7, e8, e9, e10, e11, e12, e13⟩ := h
  subst e1; subst e2; subst e3; subst e4; subst e5; subst e6; subst e7
  subst e8; subst e9; subst e10; subst e11; subst e12; subst e13
  simp only [PlayerCar.updateBoost, PlayerCar.activateBoost, PlayerCar.deactivateBoost,
    apply_ite Player.posX, apply_ite Player.posY, apply_ite Player.posZ,
    apply_ite Player.velX, apply_ite Player.velZ, apply_ite Player.rotation,
    apply_ite Player.speed, apply_ite Player.health, apply_ite Player.isAlive,
    apply_ite Player.boostActive, apply_ite Player.boostCooldownRemaining,
    apply_ite Player.boostTimeRemaining, apply_ite Player.distanceTraveled,
    apply_ite Player.isFalling, apply_ite Player.fallSpeed]
  simp

theorem updateFalling_agree (dt : ℚ) (p q : Player) (h : agreeExceptVelocity p q) :
    agreeExceptVelocity (PlayerCar.updateFalling dt p) (PlayerCar.updateFalling dt q) := by
  cases p
  cases q
  simp only [agreeExceptVelocity, velocityCleared, Player.mk.injEq] at h ⊢
  obtain ⟨e1, e2, e3, -, -, e4, e5, e6, e7, e8, e9, e10, e11, e12, e13⟩ := h
  subst e1; subst e2; subst e3; subst e4; subst e5; subst e6; subst e7
  subst e8; subst e9; subst e10; subst e11; subst e12; subst e13
  simp only [PlayerCar.updateFalling, PlayerCar.die,
    apply_ite Player.posX, apply_ite Player.posY, apply_ite Player.posZ,
    apply_ite Player.velX, apply_ite Player.velZ, apply_ite Player.rotation,
    apply_ite Player.speed, apply_ite Player.health, apply_ite Player.isAlive,
    apply_ite Player.boostActive, apply_ite Player.boostCooldownRemaining,
    apply_ite Player.boostTimeRemaining, apply_ite Player.distanceTraveled,
    apply_ite Player.isFalling, apply_ite Player.fallSpeed]
  simp

theorem update_agree (m : JsMath) (cfg : PlayerConfig) (input : PlayerInput) (dt : ℚ)
    (p q : Player) (h : agreeExceptVelocity p q) :
    agreeExceptVelocity (PlayerCar.update m cfg input dt p)
      (PlayerCar.update m cfg input dt q) := by
  have hvc : velocityCleared p = velocityCleared q := h
  have hal' := congrArg Player.isAlive hvc
  have hfl' := congrArg Player.isFalling hvc
  have hal : p.isAlive = q.isAlive := hal'
  have hfl : p.isFalling = q.isFalling := hfl'
  simp only [PlayerCar.update]
  by_cases ha : p.isAlive = false
  · rw [if_pos ha, if_pos (hal ▸ ha)]
    exact h
  · rw [if_neg ha, if_neg (fun hq => ha (hal.symm ▸ hq))]
    by_cases hf : p.isFalling = true
    · rw [if_pos hf, if_pos (hfl ▸ hf)]
      exact updateFalling_agree dt p q h
    · rw [if_neg hf, if_neg (fun hq => hf (hfl.symm ▸ hq))]
      have h2 :
          PlayerCar.applyInput m cfg input dt (PlayerCar.updateBoost cfg input dt p) =
            PlayerCar.applyInput m cfg input dt (PlayerCar.updateBoost cfg input dt q) :=
        applyInput_agree m cfg input dt _ _ (updateBoost_agree cfg input dt p q h)
      rw [h2]

theorem agreeExceptVelocity_step (m : JsMath) (cfg : PlayerConfig) (p q : Player)
    (h : agreeExceptVelocity p q) (ev : PEvent) :
    agreeExceptVelocity (PlayerCar.applyEvent m cfg p ev)
      (PlayerCar.applyEvent m cfg q (eraseImpulse ev)) := by
  cases ev with
  | tick input dt => exact update_agree m cfg input dt p q h
  | damage amount =>
    cases p
    cases q
    simp only [agreeExceptVelocity, velocityCleared, Player.mk.injEq] at h ⊢
    obtain ⟨e1, e2, e3, -, -, e4, e5, e6, e7, e8, e9, e10, e11, e12, e13⟩ := h
    subst e1; subst e2; subst e3; subst e4; subst e5; subst e6; subst e7
    subst e8; subst e9; subst e10; subst e11; subst e12; subst e13
    simp only [PlayerCar.applyEvent, eraseImpulse, PlayerCar.takeDamage, PlayerCar.die,
      apply_ite Player.posX, apply_ite Player.posY, apply_ite Player.posZ,
      apply_ite Player.velX, apply_ite Player.velZ, apply_ite Player.rotation,
      apply_ite Player.speed, apply_ite Player.health, apply_ite Player.isAlive,
      apply_ite Player.boostActive, apply_ite Player.boostCooldownRemaining,
      apply_ite Player.boostTimeRemaining, apply_ite Player.distanceTraveled,
      apply_ite Player.isFalling, apply_ite Player.fallSpeed]
    simp
  | kill =>
    cases p
    cases q
    simp only [agreeExceptVelocity, velocityCleared, Player.mk.injEq] at h ⊢
    obtain ⟨e1, e2, e3, -, -, e4, e5, e6, e7, e8, e9, e10, e11, e12, e13⟩ := h
    subst e1; subst e2; subst e3; subst e4; subst e5; subst e6; subst e7
    subst e8; subst e9; subst e10; subst e11; subst e12; subst e13
    simp only [PlayerCar.applyEvent, eraseImpulse, PlayerCar.die]
    simp
  | fall =>
    cases p
    cases q
    simp only [agreeExceptVelocity, velocityCleared, Player.mk.injEq] at h ⊢
    obtain ⟨e1, e2, e3, -, -, e4, e5, e6, e7, e8, e9, e10, e11, e12, e13⟩ := h
    subst e1; subst e2; subst e3; subst e4; subst e5; subst e6; subst e7
    subst e8; subst e9; subst e10; subst e11; subst e12; subst e13
    simp only [PlayerCar.applyEvent, eraseImpulse, PlayerCar.startFalling,
      apply_ite Player.posX, apply_ite Player.posY, apply_ite Player.posZ,
      apply_ite Player.velX, apply_ite Player.velZ, apply_ite Player.rotation,
      apply_ite Player.speed, apply_ite Player.health, apply_ite Player.isAlive,
      apply_ite Player.boostActive, apply_ite Player.boostCooldownRemaining,
      apply_ite Player.boostTimeRemaining, apply_ite Player.distanceTraveled,
      apply_ite Player.isFalling, apply_ite Player.fallSpeed]
    simp
  | impulse dvx dvz =>
    cases p
    cases q
    simp only [agreeExceptVelocity, velocityCleared, Player.mk.injEq] at h ⊢
    obtain ⟨e1, e2, e3, -, -, e4, e5, e6, e7, e8, e9, e10, e11, e12, e13⟩ := h
    subst e1; subst e2; subst e3; subst e4; subst e5; subst e6; subst e7
    subst e8; subst e9; subst e10; subst e11; subst e12; subst e13
    simp only [PlayerCar.applyEvent, eraseImpulse]
    simp
  | pushX px vx =>
    cases p
    cases q
    simp only [agreeExceptVelocity, velocityCleared, Player.mk.injEq] at h ⊢
    obtain ⟨e1, e2, e3, -, -, e4, e5, e6, e7, e8, e9, e10, e11, e12, e13⟩ := h
    subst e1; subst e2; subst e3; subst e4; subst e5; subst e6; subst e7
    subst e8; subst e9; subst e10; subst e11; subst e12; subst e13
    simp only [PlayerCar.applyEvent, eraseImpulse]
    simp
  | pushZ pz vz =>
    cases p
    cases q
    simp only [agreeExceptVelocity, velocityCleared, Player.mk.injEq] at h ⊢
    obtain ⟨e1, e2, e3, -, -, e4, e5, e6, e7, e8, e9, e10, e11, e12, e13⟩ := h
    subst e1; subst e2; subst e3; subst e4; subst e5; subst e6; subst e7
    subst e8; subst e9; subst e10; subst e11; subst e12; subst e13
    simp only [PlayerCar.applyEvent, eraseImpulse]
    simp

theorem agreeExceptVelocity_run (m : JsMath) (cfg : PlayerConfig) :
    ∀ (evs : List PEvent) (p q : Player), agreeExceptVelocity p q →
      agreeExceptVelocity (PlayerCar.run m cfg p evs)
        (PlayerCar.run m cfg q (evs.map eraseImpulse)) := by
  intro evs
  induction evs with
  | nil => intro p q h; simpa [PlayerCar.run] using h
  | cons ev rest ih =>
    intro p q h
    have hstep := agreeExceptVelocity_step m cfg p q h ev
    simpa [PlayerCar.run] using ih _ _ hstep

/-- C9: the knockback velocity impulses the collision engine adds to the
player (obstacle, traffic, chaser and city-obstacle hits) never affect the
player's position trajectory: a run of the player with those velocity writes
and the identical run with them removed produce equal positions after every
prefix of the event sequence. `PlayerCar._applyInput` overwrites the
velocity from the heading before the next position integration, and neither
the falling nor the dead branch reads the planar velocity. -/
theorem knockback_impulse_never_affects_position (m : JsMath) (cfg : PlayerConfig)
    (p : Player) (evs : List PEvent) (k : ℕ) :
    (PlayerCar.run m cfg p (evs.take k)).posX =
      (PlayerCar.run m cfg p ((evs.map eraseImpulse).take k)).posX ∧
    (PlayerCar.run m cfg p (evs.take k)).posY =
      (PlayerCar.run m cfg p ((evs.map eraseImpulse).take k)).posY ∧
    (PlayerCar.run m cfg p (evs.take k)).posZ =
      (PlayerCar.run m cfg p ((evs.map eraseImpulse).take k)).posZ := by
  have hmap : (evs.map eraseImpulse).take k = (evs.take k).map eraseImpulse := by
    simp [List.map_take]
  rw [hmap]
  have h := agreeExceptVelocity_run m cfg (evs.take k) p p (agreeExceptVelocity_refl p)
  have hx := congrArg Player.posX h
  have hy := congrArg Player.posY h
  have hz := congrArg Player.posZ h
  exact ⟨hx, hy, hz⟩

/-!
## Concrete instantiations used by the evaluation theorems

`mathRotZero` agrees with the JavaScript library at the only rotation the
evaluations exercise: `Math.sin 0 = 0` and `Math.cos 0 = 1` exactly (also in
floating point). The `sqrt` entry only feeds `distanceTraveled`, which no
evaluation statement mentions.
-/

def mathRotZero : JsMath :=
  { sin := fun _ => 0, cos := fun _ => 1, sqrt := fun _ => 0, PI := 3 }

/-- A concrete `PLAYER_CONFIG` instantiation. -/
def cfgC2 : PlayerConfig :=
  { AUTO_FORWARD_SPEED := 25, BOOST_MULTIPLIER := 3 / 2, ROTATION_SPEED := 1 / 20
    MAX_HEALTH := 100, BOOST_DURATION := 3000, BOOST_COOLDOWN := 5000
    COLLISION_DAMAGE := 20, WIDTH := 2, LENGTH := 4, HEIGHT := 3 / 2 }

/-- A concrete `PLAYER_CONFIG` with a short boost duration, for the boost
cycle runs. -/
def cfgBoost : PlayerConfig :=
  { AUTO_FORWARD_SPEED := 25, BOOST_MULTIPLIER := 3 / 2, ROTATION_SPEED := 1 / 20
    MAX_HEALTH := 100, BOOST_DURATION := 100, BOOST_COOLDOWN := 300
    COLLISION_DAMAGE := 20, WIDTH := 2, LENGTH := 4, HEIGHT := 3 / 2 }

def inputNone : PlayerInput :=
  { forward := false, backward := false, left := false, right := false, boost := false }

def inputBoost : PlayerInput :=
  { forward := false, backward := false, left := false, right := false, boost := true }

/-- A player state heading along +z (`rotation = 0`) carrying a leftover
velocity, as the tick after a collision knockback would. -/
def playerC2 : Player :=
  { posX := 0, posY := 0, posZ := 0, velX := 3, velZ := 4
    rotation := 0, speed := 7, health := 100, isAlive := true
    boostActive := false, boostCooldownRemaining := 0, boostTimeRemaining := 0
    distanceTraveled := 0, isFalling := false, fallSpeed := 0 }

/-- C2: refuted at a concrete input. A live, non-falling player tick leaves
the velocity exactly equal to the heading velocity `(sin rot, cos rot) ·
speed = (0, 25)`: no retention factor below 1 has been applied to any
component (`0.92 · 25 ≠ 25`), and no component was snapped — the shipped
`PlayerCar._updatePosition` contains no friction/damping pass at all. -/
theorem player_update_velocity_not_damped :
    (PlayerCar.update mathRotZero cfgC2 inputNone (1 / 60) playerC2).velX = 0 ∧
    (PlayerCar.update mathRotZero cfgC2 inputNone (1 / 60) playerC2).velZ = 25 ∧
    (PlayerCar.update mathRotZero cfgC2 inputNone (1 / 60) playerC2).velZ =
      (PlayerCar.update mathRotZero cfgC2 inputNone (1 / 60) playerC2).speed ∧
    (92 / 100 : ℚ) * 25 ≠ (25 : ℚ) ∧
    ¬(PlayerCar.update mathRotZero cfgC2 inputNone (1 / 60) playerC2).velZ = 0 := by
  norm_num [PlayerCar.update, PlayerCar.updateBoost, PlayerCar.applyInput,
    PlayerCar.updatePosition, PlayerCar.activateBoost, PlayerCar.deactivateBoost,
    playerC2, cfgC2, inputNone, mathRotZero]

/-- C5: refuted at a concrete reachable state. From the constructor state,
boost for 0.2 s (activates and expires in the tick, cooldown set to 300 ms),
one 0.4 s tick (the cooldown countdown undershoots to −100 ms and stops),
then boost again for 0.01 s: boost reactivates while
`boostCooldownRemaining = −100 ≠ 0`, so "while active the cooldown is
exactly 0" fails. -/
theorem boost_active_with_nonzero_cooldown :
    (PlayerCar.run mathRotZero cfgBoost (PlayerCar.initial mathRotZero cfgBoost)
        [.tick inputBoost (1 / 5), .tick inputNone (2 / 5),
          .tick inputBoost (1 / 100)]).boostActive = true ∧
    (PlayerCar.run mathRotZero cfgBoost (PlayerCar.initial mathRotZero cfgBoost)
        [.tick inputBoost (1 / 5), .tick inputNone (2 / 5),
          .tick inputBoost (1 / 100)]).boostCooldownRemaining = -100 ∧
    ¬(PlayerCar.run mathRotZero cfgBoost (PlayerCar.initial mathRotZero cfgBoost)
        [.tick inputBoost (1 / 5), .tick inputNone (2 / 5),
          .tick inputBoost (1 / 100)]).boostCooldownRemaining = 0 := by
  norm_num [PlayerCar.run, PlayerCar.applyEvent, PlayerCar.update,
    PlayerCar.updateBoost, PlayerCar.applyInput, PlayerCar.updatePosition,
    PlayerCar.activateBoost, PlayerCar.deactivateBoost, PlayerCar.initial,
    cfgBoost, inputBoost, inputNone, mathRotZero, List.foldl]

/-- The boost fields of a live, non-falling tick are exactly the boost
fields `_updateBoost` computes (`_applyInput` and `_updatePosition` do not
touch them). -/
theorem update_boostFields (m : JsMath) (cfg : PlayerConfig) (input : PlayerInput)
    (dt : ℚ) (p : Player) (h1 : ¬p.isAlive = false) (h2 : ¬p.isFalling = true) :
    (PlayerCar.update m cfg input dt p).boostActive =
        (PlayerCar.updateBoost cfg input dt p).boostActive ∧
      (PlayerCar.update m cfg input dt p).boostCooldownRemaining =
        (PlayerCar.updateBoost cfg input dt p).boostCooldownRemaining ∧
      (PlayerCar.update m cfg input dt p).boostTimeRemaining =
        (PlayerCar.updateBoost cfg input dt p).boostTimeRemaining := by
  simp only [PlayerCar.update, if_neg h1, if_neg h2]
  exact ⟨rfl, rfl, rfl⟩

/-- `updateFalling` does not touch the boost fields. -/
theorem updateFalling_boostFields (dt : ℚ) (p : Player) :
    (PlayerCar.updateFalling dt p).boostActive = p.boostActive ∧
      (PlayerCar.updateFalling dt p).boostCooldownRemaining = p.boostCooldownRemaining ∧
      (PlayerCar.updateFalling dt p).boostTimeRemaining = p.boostTimeRemaining := by
  simp only [PlayerCar.updateFalling, PlayerCar.die]
  split_ifs <;> exact ⟨rfl, rfl, rfl⟩

/-- `_updateBoost` preserves the invariant: while boost is active the
cooldown is nonpositive. -/
theorem updateBoost_inv (cfg : PlayerConfig) (input : PlayerInput) (dt : ℚ)
    (p : Player) (h : p.boostActive = true → p.boostCooldownRemaining ≤ 0) :
    (PlayerCar.updateBoost cfg input dt p).boostActive = true →
      (PlayerCar.updateBoost cfg input dt p).boostCooldownRemaining ≤ 0 := by
  simp only [PlayerCar.updateBoost, PlayerCar.activateBoost, PlayerCar.deactivateBoost,
    apply_ite Player.boostActive, apply_ite Player.boostCooldownRemaining,
    apply_ite Player.boostTimeRemaining, ite_self]
  split_ifs <;> intro ha <;> simp_all <;> linarith

/-- Every player event preserves the boost invariant. -/
theorem boostInv_applyEvent (m : JsMath) (cfg : PlayerConfig) (p : Player) (ev : PEvent)
    (h : p.boostActive = true → p.boostCooldownRemaining ≤ 0) :
    (PlayerCar.applyEvent m cfg p ev).boostActive = true →
      (PlayerCar.applyEvent m cfg p ev).boostCooldownRemaining ≤ 0 := by
  cases ev with
  | tick input dt =>
    simp only [PlayerCar.applyEvent, PlayerCar.update]
    split_ifs with h1 h2
    · exact h
    · intro ha
      have hb := updateFalling_boostFields dt p
      rw [hb.1] at ha
      rw [hb.2.1]
      exact h ha
    · intro ha
      have ha' : (PlayerCar.updateBoost cfg input dt p).boostActive = true := ha
      exact updateBoost_inv cfg input dt p h ha'
  | damage amount =>
    simp only [PlayerCar.applyEvent, PlayerCar.takeDamage, PlayerCar.die]
    split_ifs <;> exact h
  | kill => exact h
  | fall =>
    simp only [PlayerCar.applyEvent, PlayerCar.startFalling]
    split_ifs <;> exact h
  | impulse dvx dvz => exact h
  | pushX px vx => exact h
  | pushZ pz vz => exact h

theorem boostInv_run_aux (m : JsMath) (cfg : PlayerConfig) :
    ∀ (evs : List PEvent) (p : Player),
      (p.boostActive = true → p.boostCooldownRemaining ≤ 0) →
      ((PlayerCar.run m cfg p evs).boostActive = true →
        (PlayerCar.run m cfg p evs).boostCooldownRemaining ≤ 0) := by
  intro evs
  induction evs with
  | nil => intro p h; simpa [PlayerCar.run] using h
  | cons ev rest ih =>
    intro p h
    have hstep := boostInv_applyEvent m cfg p ev h
    simpa [PlayerCar.run] using ih (PlayerCar.applyEvent m cfg p ev) hstep

/-- C5 (amended): boost mutual exclusion as the code realises it. On every
reachable player state, while boost is active the cooldown countdown is
nonpositive (not necessarily exactly 0 — the countdown may undershoot past
zero and activation does not reset it); boost is never activated while the
effective cooldown (after the tick's decrement) is still positive; and while
already active a tick only counts the remaining duration down, deactivation
setting the cooldown to `BOOST_COOLDOWN`. -/
theorem boost_mutual_exclusion_amended (m : JsMath) (cfg : PlayerConfig)
    (evs : List PEvent) (input : PlayerInput) (dt : ℚ) :
    ((PlayerCar.run m cfg (PlayerCar.initial m cfg) evs).boostActive = true →
      (PlayerCar.run m cfg (PlayerCar.initial m cfg) evs).boostCooldownRemaining ≤ 0) ∧
    (∀ p : Player, p.boostActive = false →
      0 < (if 0 < p.boostCooldownRemaining then p.boostCooldownRemaining - dt * 1000
           else p.boostCooldownRemaining) →
      (PlayerCar.update m cfg input dt p).boostActive = false) ∧
    (∀ p : Player, p.isAlive = true → p.isFalling = false → p.boostActive = true →
      (PlayerCar.update m cfg input dt p).boostTimeRemaining =
          p.boostTimeRemaining - dt * 1000 ∧
        (p.boostTimeRemaining - dt * 1000 ≤ 0 →
          (PlayerCar.update m cfg input dt p).boostActive = false ∧
          (PlayerCar.update m cfg input dt p).boostCooldownRemaining =
            cfg.BOOST_COOLDOWN)) := by
  refine ⟨?_, ?_, ?_⟩
  · exact boostInv_run_aux m cfg evs (PlayerCar.initial m cfg) (by simp [PlayerCar.initial])
  · intro p hpa heff
    by_cases h1 : p.isAlive = false
    · simp only [PlayerCar.update, if_pos h1]
      exact hpa
    · by_cases h2 : p.isFalling = true
      · simp only [PlayerCar.update, if_neg h1, if_pos h2]
        rw [(updateFalling_boostFields dt p).1]
        exact hpa
      · rw [(update_boostFields m cfg input dt p h1 h2).1]
        simp only [PlayerCar.updateBoost, PlayerCar.activateBoost,
          PlayerCar.deactivateBoost, apply_ite Player.boostActive,
          apply_ite Player.boostCooldownRemaining, apply_ite Player.boostTimeRemaining,
          ite_self]
        split_ifs <;> simp_all <;> linarith
  · intro p h1 h2 h3
    have hba := (update_boostFields m cfg input dt p (by simp [h1]) (by simp [h2])).1
    have hbc := (update_boostFields m cfg input dt p (by simp [h1]) (by simp [h2])).2.1
    have hbt := (update_boostFields m cfg input dt p (by simp [h1]) (by simp [h2])).2.2
    rw [hba, hbc, hbt]
    simp only [PlayerCar.updateBoost, PlayerCar.activateBoost,
      PlayerCar.deactivateBoost, apply_ite Player.boostActive,
      apply_ite Player.boostCooldownRemaining, apply_ite Player.boostTimeRemaining,
      ite_self]
    split_ifs <;> simp_all <;> linarith

/-- A state in mid-cooldown (`boostCooldownRemaining = 300`). -/
def playerCooling : Player :=
  { playerC2 with boostCooldownRemaining := 300 }

theorem boost_mutual_exclusion_amended_witness :
    ((PlayerCar.run mathRotZero cfgBoost (PlayerCar.initial mathRotZero cfgBoost)
        [PEvent.tick inputBoost (1 / 5), PEvent.tick inputNone (2 / 5),
          PEvent.tick inputBoost (1 / 100)]).boostCooldownRemaining ≤ 0) ∧
    (PlayerCar.update mathRotZero cfgBoost inputBoost (1 / 100) playerCooling).boostActive
      = false :=
  ⟨(boost_mutual_exclusion_amended mathRotZero cfgBoost
      [PEvent.tick inputBoost (1 / 5), PEvent.tick inputNone (2 / 5),
        PEvent.tick inputBoost (1 / 100)] inputBoost (1 / 100)).1
      (by norm_num [PlayerCar.run, PlayerCar.applyEvent, PlayerCar.update,
        PlayerCar.updateBoost, PlayerCar.applyInput, PlayerCar.updatePosition,
        PlayerCar.activateBoost, PlayerCar.deactivateBoost, PlayerCar.initial,
        cfgBoost, inputBoost, inputNone, mathRotZero, List.foldl]),
   (boost_mutual_exclusion_amended mathRotZero cfgBoost [] inputBoost (1 / 100)).2.1
      playerCooling (by norm_num [playerCooling, playerC2])
      (by norm_num [playerCooling, playerC2])⟩

/-!
## Wanted-level controller (`WantedSystem.js`)
-/

/-- The `WANTED_CONFIG` values consumed by the controller. -/
structure WantedConfig where
  WANTED_THRESHOLDS : List ℚ
  MAX_WANTED_LEVEL : ℕ
  BASE_SPAWN_INTERVAL : ℚ
  SPAWN_INTERVAL_REDUCTION : ℚ
  MIN_SPAWN_INTERVAL : ℚ
  BASE_POLICE_COUNT : ℕ
  POLICE_PER_STAR : ℕ
deriving DecidableEq, Repr

/-- The controller state; the shared enemies array is abstracted to its
length, which is all the spawn logic reads of it. -/
structure WantedState where
  currentWantedLevel : ℕ
  survivalTime : ℚ
  lastSpawnTime : ℚ
  enemyCount : ℕ
deriving DecidableEq, Repr

namespace WantedSystem

/-- The `WantedSystem` constructor state, over a roster that already holds
`enemyCount0` chasers. -/
def initial (enemyCount0 : ℕ) : WantedState :=
  { currentWantedLevel := 1, survivalTime := 0, lastSpawnTime := 0
    enemyCount := enemyCount0 }

/-- The `for` loop of `_updateWantedLevel`: `newLevel` starts at 1 and is
overwritten with `i + 1` at every zero-based index `i` whose threshold is
reached; the second argument is the index of the head of the list. -/
def levelLoop (surv : ℚ) : List ℚ → ℕ → ℕ → ℕ
  | [], _, newLevel => newLevel
  | t :: ts, i, newLevel => levelLoop surv ts (i + 1) (if t ≤ surv then i + 1 else newLevel)

/-- `WantedSystem._updateWantedLevel`. -/
def updateWantedLevel (cfg : WantedConfig) (st : WantedState) : WantedState :=
  let newLevel :=
    Min.min (levelLoop st.survivalTime cfg.WANTED_THRESHOLDS 0 1) cfg.MAX_WANTED_LEVEL
  if st.currentWantedLevel < newLevel then { st with currentWantedLevel := newLevel }
  else st

/-- The capped level `_updateWantedLevel` computes from a survival time. -/
def levelOf (cfg : WantedConfig) (surv : ℚ) : ℕ :=
  Min.min (levelLoop surv cfg.WANTED_THRESHOLDS 0 1) cfg.MAX_WANTED_LEVEL

/-- `WantedSystem._getSpawnInterval`. -/
def getSpawnInterval (cfg : WantedConfig) (st : WantedState) : ℚ :=
  Max.max
    (cfg.BASE_SPAWN_INTERVAL -
      ((st.currentWantedLevel : ℚ) - 1) * cfg.SPAWN_INTERVAL_REDUCTION)
    cfg.MIN_SPAWN_INTERVAL

/-- `WantedSystem._getMaxPoliceCount`; levels start at 1, so the natural
subtraction agrees with the JavaScript arithmetic. -/
def getMaxPoliceCount (cfg : WantedConfig) (st : WantedState) : ℕ :=
  cfg.BASE_POLICE_COUNT + (st.currentWantedLevel - 1) * cfg.POLICE_PER_STAR

/-- `WantedSystem._spawnPolice` (the spawn position feeds the constructed
chaser, not the controller, and is omitted here). -/
def spawnPolice (cfg : WantedConfig) (st : WantedState) : WantedState :=
  if getMaxPoliceCount cfg st ≤ st.enemyCount then st
  else { st with enemyCount := st.enemyCount + 1 }

/-- `WantedSystem._spawnPoliceForWantedLevel`. -/
def spawnPoliceForWantedLevel (cfg : WantedConfig) (dt : ℚ) (st : WantedState) :
    WantedState :=
  let st := { st with lastSpawnTime := st.lastSpawnTime + dt }
  if getSpawnInterval cfg st ≤ st.lastSpawnTime then
    let st := (spawnPolice cfg)^[Min.min st.currentWantedLevel 3] st
    { st with lastSpawnTime := 0 }
  else st

/-- `WantedSystem.update`. -/
def update (cfg : WantedConfig) (dt : ℚ) (st : WantedState) : WantedState :=
  spawnPoliceForWantedLevel cfg dt
    (updateWantedLevel cfg { st with survivalTime := st.survivalTime + dt })

/-- A sequence of `update` calls. -/
def runCalls (cfg : WantedConfig) (st : WantedState) (dts : List ℚ) : WantedState :=
  dts.foldl (fun s dt => update cfg dt s) st

end WantedSystem

theorem levelLoop_ge (surv : ℚ) :
    ∀ (ts : List ℚ) (i0 acc : ℕ), acc ≤ i0 + 1 →
      acc ≤ WantedSystem.levelLoop surv ts i0 acc := by
  intro ts
  induction ts with
  | nil => intro i0 acc h; exact le_refl acc
  | cons t ts ih =>
    intro i0 acc h
    simp only [WantedSystem.levelLoop]
    split_ifs with ht
    · exact le_trans (by omega) (ih (i0 + 1) (i0 + 1) (by omega))
    · exact ih (i0 + 1) acc (by omega)

theorem levelLoop_mono (surv survB : ℚ) (hs : surv ≤ survB) :
    ∀ (ts : List ℚ) (i0 acc accB : ℕ), acc ≤ accB → acc ≤ i0 + 1 →
      WantedSystem.levelLoop surv ts i0 acc ≤ WantedSystem.levelLoop survB ts i0 accB := by
  intro ts
  induction ts with
  | nil => intro i0 acc accB h1 h2; exact h1
  | cons t ts ih =>
    intro i0 acc accB h1 h2
    simp only [WantedSystem.levelLoop]
    split_ifs with ht htB
    · exact ih (i0 + 1) (i0 + 1) (i0 + 1) le_rfl (by omega)
    · exact absurd (le_trans ht hs) htB
    · exact ih (i0 + 1) acc (i0 + 1) (by omega) (by omega)
    · exact ih (i0 + 1) acc accB h1 (by omega)

theorem levelLoop_lower (surv : ℚ) :
    ∀ (ts : List ℚ) (i0 acc k : ℕ) (hk : k < ts.length),
      ts.get ⟨k, hk⟩ ≤ surv → i0 + k + 1 ≤ WantedSystem.levelLoop surv ts i0 acc := by
  intro ts
  induction ts with
  | nil => intro i0 acc k hk; simp at hk
  | cons t ts ih =>
    intro i0 acc k hk hle
    cases k with
    | zero =>
      have ht : t ≤ surv := hle
      simp only [WantedSystem.levelLoop, if_pos ht]
      have := levelLoop_ge surv ts (i0 + 1) (i0 + 1) (by omega)
      omega
    | succ k =>
      have hk2 : k < ts.length := by simpa using Nat.lt_of_succ_lt_succ hk
      have hle2 : ts.get ⟨k, hk2⟩ ≤ surv := hle
      simp only [WantedSystem.levelLoop]
      have := ih (i0 + 1) (if t ≤ surv then i0 + 1 else acc) k hk2 hle2
      omega

theorem levelLoop_attain (surv : ℚ) :
    ∀ (ts : List ℚ) (i0 acc : ℕ),
      WantedSystem.levelLoop surv ts i0 acc = acc ∨
        ∃ k, ∃ hk : k < ts.length, ts.get ⟨k, hk⟩ ≤ surv ∧
          WantedSystem.levelLoop surv ts i0 acc = i0 + k + 1 := by
  intro ts
  induction ts with
  | nil => intro i0 acc; left; rfl
  | cons t ts ih =>
    intro i0 acc
    simp only [WantedSystem.levelLoop]
    by_cases ht : t ≤ surv
    · rw [if_pos ht]
      rcases ih (i0 + 1) (i0 + 1) with h | ⟨k, hk, hle, heq⟩
      · right
        refine ⟨0, by simp, ht, by omega⟩
      · right
        refine ⟨k + 1, by simpa using Nat.succ_lt_succ hk, hle, by omega⟩
    · rw [if_neg ht]
      rcases ih (i0 + 1) acc with h | ⟨k, hk, hle, heq⟩
      · left; exact h
      · right
        refine ⟨k + 1, by simpa using Nat.succ_lt_succ hk, hle, by omega⟩

theorem levelLoop_none (surv : ℚ) :
    ∀ (ts : List ℚ) (i0 acc : ℕ), (∀ t ∈ ts, ¬t ≤ surv) →
      WantedSystem.levelLoop surv ts i0 acc = acc := by
  intro ts
  induction ts with
  | nil => intro i0 acc _; rfl
  | cons t ts ih =>
    intro i0 acc h
    simp only [WantedSystem.levelLoop, if_neg (h t (by simp))]
    exact ih (i0 + 1) acc fun x hx => h x (by simp [hx])

theorem levelOf_mono (cfg : WantedConfig) (surv survB : ℚ) (hs : surv ≤ survB) :
    WantedSystem.levelOf cfg surv ≤ WantedSystem.levelOf cfg survB := by
  unfold WantedSystem.levelOf
  exact min_le_min
    (levelLoop_mono surv survB hs cfg.WANTED_THRESHOLDS 0 1 1 le_rfl (by omega)) le_rfl

theorem spawnPolice_preserves (cfg : WantedConfig) (st : WantedState) :
    (WantedSystem.spawnPolice cfg st).currentWantedLevel = st.currentWantedLevel ∧
      (WantedSystem.spawnPolice cfg st).survivalTime = st.survivalTime := by
  unfold WantedSystem.spawnPolice
  split_ifs <;> exact ⟨rfl, rfl⟩

theorem spawnPolice_iter_preserves (cfg : WantedConfig) (n : ℕ) :
    ∀ st : WantedState,
      ((WantedSystem.spawnPolice cfg)^[n] st).currentWantedLevel = st.currentWantedLevel ∧
        ((WantedSystem.spawnPolice cfg)^[n] st).survivalTime = st.survivalTime := by
  induction n with
  | zero => intro st; exact ⟨rfl, rfl⟩
  | succ n ih =>
    intro st
    rw [Function.iterate_succ_apply]
    rcases spawnPolice_preserves cfg st with ⟨h1, h2⟩
    rcases ih (WantedSystem.spawnPolice cfg st) with ⟨h3, h4⟩
    exact ⟨h3.trans h1, h4.trans h2⟩

theorem spawnPhase_preserves (cfg : WantedConfig) (dt : ℚ) (st : WantedState) :
    (WantedSystem.spawnPoliceForWantedLevel cfg dt st).currentWantedLevel =
        st.currentWantedLevel ∧
      (WantedSystem.spawnPoliceForWantedLevel cfg dt st).survivalTime = st.survivalTime := by
  simp only [WantedSystem.spawnPoliceForWantedLevel]
  split_ifs with h
  · rcases spawnPolice_iter_preserves cfg
        (Min.min ({ st with lastSpawnTime := st.lastSpawnTime + dt} : WantedState).currentWantedLevel 3)
        { st with lastSpawnTime := st.lastSpawnTime + dt } with ⟨h1, h2⟩
    exact ⟨h1, h2⟩
  · exact ⟨rfl, rfl⟩

theorem wanted_update_spec (cfg : WantedConfig) (dt : ℚ) (hdt : 0 ≤ dt)
    (st : WantedState)
    (h : st.currentWantedLevel ≤ WantedSystem.levelOf cfg st.survivalTime) :
    (WantedSystem.update cfg dt st).survivalTime = st.survivalTime + dt ∧
      (WantedSystem.update cfg dt st).currentWantedLevel =
        WantedSystem.levelOf cfg (st.survivalTime + dt) := by
  have hmono : WantedSystem.levelOf cfg st.survivalTime ≤
      WantedSystem.levelOf cfg (st.survivalTime + dt) :=
    levelOf_mono cfg _ _ (by linarith)
  unfold WantedSystem.update
  rcases spawnPhase_preserves cfg dt
      (WantedSystem.updateWantedLevel cfg { st with survivalTime := st.survivalTime + dt })
    with ⟨hs1, hs2⟩
  rw [hs1, hs2]
  simp only [WantedSystem.updateWantedLevel]
  split_ifs with hlt
  · exact ⟨rfl, rfl⟩
  · refine ⟨rfl, ?_⟩
    have hlt2 : WantedSystem.levelOf cfg (st.survivalTime + dt) ≤ st.currentWantedLevel := by
      simpa [WantedSystem.levelOf] using Nat.le_of_not_lt hlt
    show st.currentWantedLevel = WantedSystem.levelOf cfg (st.survivalTime + dt)
    omega

theorem runCalls_inv (cfg : WantedConfig) :
    ∀ (dts : List ℚ), (∀ x ∈ dts, 0 ≤ x) → ∀ st : WantedState,
      st.currentWantedLevel = WantedSystem.levelOf cfg st.survivalTime →
      (WantedSystem.runCalls cfg st dts).survivalTime = st.survivalTime + dts.sum ∧
        (WantedSystem.runCalls cfg st dts).currentWantedLevel =
          WantedSystem.levelOf cfg (WantedSystem.runCalls cfg st dts).survivalTime ∧
        st.currentWantedLevel ≤ (WantedSystem.runCalls cfg st dts).currentWantedLevel := by
  intro dts
  induction dts with
  | nil =>
    intro _ st h
    refine ⟨by simp [WantedSystem.runCalls], by simpa [WantedSystem.runCalls] using h, le_refl _⟩
  | cons dt dts ih =>
    intro hnn st h
    have hdt : 0 ≤ dt := hnn dt (by simp)
    rcases wanted_update_spec cfg dt hdt st (le_of_eq h) with ⟨h1, h2⟩
    have hrec := ih (fun x hx => hnn x (by simp [hx])) (WantedSystem.update cfg dt st)
      (by rw [h2, h1])
    rcases hrec with ⟨r1, r2, r3⟩
    refine ⟨?_, ?_, ?_⟩
    · have hstep : WantedSystem.runCalls cfg st (dt :: dts) =
          WantedSystem.runCalls cfg (WantedSystem.update cfg dt st) dts := rfl
      rw [hstep, r1, h1, List.sum_cons]
      ring
    · exact r2
    · calc st.currentWantedLevel
          = WantedSystem.levelOf cfg st.survivalTime := h
        _ ≤ WantedSystem.levelOf cfg (st.survivalTime + dt) :=
            levelOf_mono cfg _ _ (by linarith)
        _ = (WantedSystem.update cfg dt st).currentWantedLevel := h2.symm
        _ ≤ _ := r3

/-- C6: after every `WantedSystem.update` call of a run with nonnegative
frame deltas (and positive, as configured, thresholds with
`MAX_WANTED_LEVEL ≥ 1`), the survival time is the accumulated delta sum and
`currentWantedLevel` is exactly the largest one-indexed threshold index the
survival time has reached (1 when none), capped at `MAX_WANTED_LEVEL`; the
level never decreases across calls and changes only when the survival time
crosses a configured threshold during the call. -/
theorem wanted_level_matches_thresholds (cfg : WantedConfig) (n0 : ℕ)
    (hmax : 1 ≤ cfg.MAX_WANTED_LEVEL)
    (hpos : ∀ t ∈ cfg.WANTED_THRESHOLDS, 0 < t)
    (dts : List ℚ) (hdts : ∀ x ∈ dts, 0 ≤ x) (d : ℚ) (hd : 0 ≤ d) :
    let sPrev := WantedSystem.runCalls cfg (WantedSystem.initial n0) dts
    let s := WantedSystem.update cfg d sPrev
    s.survivalTime = dts.sum + d ∧
    1 ≤ s.currentWantedLevel ∧
    s.currentWantedLevel ≤ cfg.MAX_WANTED_LEVEL ∧
    (∀ k, ∀ hk : k < cfg.WANTED_THRESHOLDS.length,
      cfg.WANTED_THRESHOLDS.get ⟨k, hk⟩ ≤ s.survivalTime →
      Min.min (k + 1) cfg.MAX_WANTED_LEVEL ≤ s.currentWantedLevel) ∧
    (s.currentWantedLevel = 1 ∨
      ∃ k, ∃ hk : k < cfg.WANTED_THRESHOLDS.length,
        cfg.WANTED_THRESHOLDS.get ⟨k, hk⟩ ≤ s.survivalTime ∧
        s.currentWantedLevel = Min.min (k + 1) cfg.MAX_WANTED_LEVEL) ∧
    sPrev.currentWantedLevel ≤ s.currentWantedLevel ∧
    (sPrev.currentWantedLevel ≠ s.currentWantedLevel →
      ∃ k, ∃ hk : k < cfg.WANTED_THRESHOLDS.length,
        cfg.WANTED_THRESHOLDS.get ⟨k, hk⟩ ≤ s.survivalTime ∧
        ¬cfg.WANTED_THRESHOLDS.get ⟨k, hk⟩ ≤ sPrev.survivalTime) := by
  intro sPrev s
  have hInitLevel : (WantedSystem.initial n0).currentWantedLevel =
      WantedSystem.levelOf cfg (WantedSystem.initial n0).survivalTime := by
    have hz : WantedSystem.levelLoop (0 : ℚ) cfg.WANTED_THRESHOLDS 0 1 = 1 :=
      levelLoop_none 0 cfg.WANTED_THRESHOLDS 0 1
        (fun t ht => not_le.mpr (hpos t ht))
    simp [WantedSystem.initial, WantedSystem.levelOf, hz, min_eq_left hmax]
  rcases runCalls_inv cfg dts hdts (WantedSystem.initial n0) hInitLevel with ⟨rs, rl, rm⟩
  rcases wanted_update_spec cfg d hd sPrev (le_of_eq rl) with ⟨us, ul⟩
  have hsurvPrev : sPrev.survivalTime = dts.sum := by
    simpa [WantedSystem.initial] using rs
  have hsurv : s.survivalTime = dts.sum + d := by rw [us, hsurvPrev]
  refine ⟨hsurv, ?_, ?_, ?_, ?_, ?_, ?_⟩
  · rw [ul]
    exact le_min (levelLoop_ge _ cfg.WANTED_THRESHOLDS 0 1 (by omega)) hmax
  · rw [ul]
    exact min_le_right _ _
  · intro k hk hle
    rw [ul]
    have hle2 : cfg.WANTED_THRESHOLDS.get ⟨k, hk⟩ ≤ sPrev.survivalTime + d := by
      rw [← us]; exact hle
    have := levelLoop_lower (sPrev.survivalTime + d) cfg.WANTED_THRESHOLDS 0 1 k hk hle2
    exact min_le_min (by omega) le_rfl
  · rcases levelLoop_attain (sPrev.survivalTime + d) cfg.WANTED_THRESHOLDS 0 1 with h1 | ⟨k, hk, hle, heq⟩
    · left
      rw [ul]
      simp [WantedSystem.levelOf, h1, min_eq_left hmax]
    · right
      refine ⟨k, hk, by rw [us]; exact hle, ?_⟩
      rw [ul]
      simp [WantedSystem.levelOf, heq]
  · rw [ul, rl]
    exact levelOf_mono cfg _ _ (by linarith)
  · intro hne
    have hmono2 : sPrev.currentWantedLevel ≤ s.currentWantedLevel := by
      rw [ul, rl]; exact levelOf_mono cfg _ _ (by linarith)
    have hlt : sPrev.currentWantedLevel < s.currentWantedLevel :=
      lt_of_le_of_ne hmono2 hne
    have hraw : WantedSystem.levelLoop sPrev.survivalTime cfg.WANTED_THRESHOLDS 0 1 <
        WantedSystem.levelLoop (sPrev.survivalTime + d) cfg.WANTED_THRESHOLDS 0 1 := by
      by_contra hcon
      push_neg at hcon
      have hminle :
          Min.min (WantedSystem.levelLoop (sPrev.survivalTime + d)
              cfg.WANTED_THRESHOLDS 0 1) cfg.MAX_WANTED_LEVEL ≤
            Min.min (WantedSystem.levelLoop sPrev.survivalTime
              cfg.WANTED_THRESHOLDS 0 1) cfg.MAX_WANTED_LEVEL :=
        min_le_min hcon le_rfl
      have rl2 : sPrev.currentWantedLevel =
          WantedSystem.levelOf cfg sPrev.survivalTime := rl
      rw [rl2, ul] at hlt
      simp only [WantedSystem.levelOf] at hlt
      omega
    rcases levelLoop_attain (sPrev.survivalTime + d) cfg.WANTED_THRESHOLDS 0 1 with h1 | ⟨k, hk, hle, heq⟩
    · exfalso
      have := levelLoop_ge sPrev.survivalTime cfg.WANTED_THRESHOLDS 0 1 (by omega)
      omega
    · refine ⟨k, hk, by rw [us]; exact hle, ?_⟩
      intro hcon
      have := levelLoop_lower sPrev.survivalTime cfg.WANTED_THRESHOLDS 0 1 k hk hcon
      omega

/-- A concrete `WANTED_CONFIG`. -/
def cfgW : WantedConfig :=
  { WANTED_THRESHOLDS := [10, 30, 60], MAX_WANTED_LEVEL := 5
    BASE_SPAWN_INTERVAL := 5, SPAWN_INTERVAL_REDUCTION := 1 / 2
    MIN_SPAWN_INTERVAL := 1, BASE_POLICE_COUNT := 1, POLICE_PER_STAR := 2 }

theorem wanted_level_matches_thresholds_witness :
    (WantedSystem.update cfgW 15
        (WantedSystem.runCalls cfgW (WantedSystem.initial 1) [20])).survivalTime =
      ([20] : List ℚ).sum + 15 ∧
    (WantedSystem.update cfgW 15
        (WantedSystem.runCalls cfgW (WantedSystem.initial 1) [20])).currentWantedLevel ≤
      cfgW.MAX_WANTED_LEVEL :=
  ⟨(wanted_level_matches_thresholds cfgW 1 (by norm_num [cfgW])
      (by norm_num [cfgW]) [20] (by norm_num) 15 (by norm_num)).1,
   (wanted_level_matches_thresholds cfgW 1 (by norm_num [cfgW])
      (by norm_num [cfgW]) [20] (by norm_num) 15 (by norm_num)).2.2.1⟩

/-!
## Chaser motion (`EnemyChaser.js`)
-/

/-- A building as the collision code reads it: mesh center position plus
the box geometry parameters. -/
structure Building where
  posX : ℚ
  posZ : ℚ
  width : ℚ
  depth : ℚ
  height : ℚ
deriving DecidableEq, Repr

/-- The `ENEMY_CONFIG` dimensions consumed by the chaser bounding box. -/
structure EnemyConfig where
  WIDTH : ℚ
  LENGTH : ℚ
  HEIGHT : ℚ
deriving DecidableEq, Repr

/-- The motion state of an `EnemyChaser` (pursuit-AI bookkeeping and mesh
omitted; the building-response claim concerns `_updatePosition` and
`_checkBuildingCollisions`). -/
structure Chaser where
  posX : ℚ
  posZ : ℚ
  velX : ℚ
  velZ : ℚ
  rotation : ℚ
  speed : ℚ
deriving DecidableEq, Repr

namespace EnemyChaser

/-- `EnemyChaser.getBoundingBox`. -/
def getBoundingBox (ecfg : EnemyConfig) (e : Chaser) : AABB :=
  { min := { x := e.posX - ecfg.WIDTH / 2, y := 0, z := e.posZ - ecfg.LENGTH / 2 }
    max := { x := e.posX + ecfg.WIDTH / 2, y := ecfg.HEIGHT, z := e.posZ + ecfg.LENGTH / 2 } }

/-- The building box `_checkBuildingCollisions` derives from the mesh. -/
def buildingBox (b : Building) : AABB :=
  { min := { x := b.posX - b.width / 2, y := 0, z := b.posZ - b.depth / 2 }
    max := { x := b.posX + b.width / 2, y := b.height, z := b.posZ + b.depth / 2 } }

/-- The inline strict AABB test of `_checkBuildingCollisions` (x/z only). -/
def overlapsBuilding (policeBox bBox : AABB) : Bool :=
  decide (policeBox.min.x < bBox.max.x) && decide (bBox.min.x < policeBox.max.x) &&
  decide (policeBox.min.z < bBox.max.z) && decide (bBox.min.z < policeBox.max.z)

/-- `EnemyChaser._checkBuildingCollisions`: on the first building whose box
overlaps the chaser box, roll the position back to the pre-move value,
perturb the heading by `(random − 0.5)·π/2` and halve the speed; `r` is the
`Math.random()` draw. -/
def checkBuildingCollisions (m : JsMath) (ecfg : EnemyConfig)
    (buildings : List Building) (r : ℚ) (oldX oldZ : ℚ) (e : Chaser) : Chaser :=
  match buildings.find? (fun b => overlapsBuilding (getBoundingBox ecfg e) (buildingBox b)) with
  | some _ =>
      { e with
        posX := oldX
        posZ := oldZ
        rotation := e.rotation + (r - 1 / 2) * m.PI / 2
        speed := e.speed * (1 / 2) }
  | none => e

/-- The velocity-from-heading and position-integration half of
`EnemyChaser._updatePosition`. -/
def integrate (m : JsMath) (dt : ℚ) (e : Chaser) : Chaser :=
  let e := { e with velX := m.sin e.rotation * e.speed, velZ := m.cos e.rotation * e.speed }
  { e with posX := e.posX + e.velX * dt, posZ := e.posZ + e.velZ * dt }

/-- `EnemyChaser._updatePosition`. -/
def updatePosition (m : JsMath) (ecfg : EnemyConfig) (hasCity : Bool)
    (buildings : List Building) (r : ℚ) (dt : ℚ) (e : Chaser) : Chaser :=
  let moved := integrate m dt e
  if hasCity then checkBuildingCollisions m ecfg buildings r e.posX e.posZ moved
  else moved

end EnemyChaser

/-- C7: whenever the integrated move of a chaser tick produces an AABB that
overlaps some building box, `_checkBuildingCollisions` rolls the position
back to the pre-move value, halves the speed it had at the moment of the
collision, and perturbs the heading by at most ±45° (i.e. ±π/4 for the
`Math.random()` draw `r ∈ [0,1]` and the library constant `π ≥ 0`). -/
theorem chaser_building_bounce (m : JsMath) (ecfg : EnemyConfig)
    (buildings : List Building) (r dt : ℚ) (e : Chaser)
    (hr0 : 0 ≤ r) (hr1 : r ≤ 1) (hpi : 0 ≤ m.PI)
    (hhit : ∃ b ∈ buildings,
      EnemyChaser.overlapsBuilding
        (EnemyChaser.getBoundingBox ecfg (EnemyChaser.integrate m dt e))
        (EnemyChaser.buildingBox b) = true) :
    (EnemyChaser.updatePosition m ecfg true buildings r dt e).posX = e.posX ∧
    (EnemyChaser.updatePosition m ecfg true buildings r dt e).posZ = e.posZ ∧
    (EnemyChaser.updatePosition m ecfg true buildings r dt e).speed = e.speed * (1 / 2) ∧
    |(EnemyChaser.updatePosition m ecfg true buildings r dt e).rotation - e.rotation| ≤
      m.PI / 4 := by
  have hsome : (buildings.find? (fun b =>
      EnemyChaser.overlapsBuilding
        (EnemyChaser.getBoundingBox ecfg (EnemyChaser.integrate m dt e))
        (EnemyChaser.buildingBox b))).isSome := by
    rw [List.find?_isSome]
    rcases hhit with ⟨b, hb, hover⟩
    exact ⟨b, hb, hover⟩
  rcases Option.isSome_iff_exists.mp hsome with ⟨b, hfind⟩
  have hstep : EnemyChaser.updatePosition m ecfg true buildings r dt e =
      { EnemyChaser.integrate m dt e with
        posX := e.posX
        posZ := e.posZ
        rotation := (EnemyChaser.integrate m dt e).rotation + (r - 1 / 2) * m.PI / 2
        speed := (EnemyChaser.integrate m dt e).speed * (1 / 2) } := by
    simp only [EnemyChaser.updatePosition, EnemyChaser.checkBuildingCollisions, if_pos,
      hfind]
  rw [hstep]
  have hrot : (EnemyChaser.integrate m dt e).rotation = e.rotation := rfl
  have hspd : (EnemyChaser.integrate m dt e).speed = e.speed := rfl
  refine ⟨rfl, rfl, by rw [hspd], ?_⟩
  have heq : ({ EnemyChaser.integrate m dt e with
      posX := e.posX
      posZ := e.posZ
      rotation := (EnemyChaser.integrate m dt e).rotation + (r - 1 / 2) * m.PI / 2
      speed := (EnemyChaser.integrate m dt e).speed * (1 / 2) } : Chaser).rotation -
        e.rotation = (r - 1 / 2) * m.PI / 2 := by
    rw [hrot]
    ring_nf
  rw [heq]
  have hb1 : (r - 1 / 2) * m.PI ≤ (1 / 2) * m.PI :=
    mul_le_mul_of_nonneg_right (by linarith) hpi
  have hb2 : (-(1 / 2)) * m.PI ≤ (r - 1 / 2) * m.PI :=
    mul_le_mul_of_nonneg_right (by linarith) hpi
  rw [abs_le]
  constructor <;> linarith

/-- The `ENEMY_CONFIG` dimensions used by the concrete runs. -/
def ecfgW : EnemyConfig := { WIDTH := 2, LENGTH := 4, HEIGHT := 3 / 2 }

/-- A building directly ahead of the chaser below. -/
def buildingW : Building := { posX := 0, posZ := 5, width := 12, depth := 12, height := 20 }

/-- A chaser heading along +z into `buildingW`. -/
def chaserW : Chaser :=
  { posX := 0, posZ := 0, velX := 0, velZ := 0, rotation := 0, speed := 10 }

theorem chaser_building_bounce_witness :
    (EnemyChaser.updatePosition mathRotZero ecfgW true [buildingW] (1 / 2) (1 / 10)
        chaserW).posX = chaserW.posX ∧
    (EnemyChaser.updatePosition mathRotZero ecfgW true [buildingW] (1 / 2) (1 / 10)
        chaserW).speed = chaserW.speed * (1 / 2) :=
  ⟨(chaser_building_bounce mathRotZero ecfgW [buildingW] (1 / 2) (1 / 10) chaserW
      (by norm_num) (by norm_num) (by norm_num [mathRotZero])
      ⟨buildingW, by norm_num, by norm_num [EnemyChaser.overlapsBuilding,
        EnemyChaser.getBoundingBox, EnemyChaser.buildingBox, EnemyChaser.integrate,
        mathRotZero, ecfgW, buildingW, chaserW]⟩).1,
   (chaser_building_bounce mathRotZero ecfgW [buildingW] (1 / 2) (1 / 10) chaserW
      (by norm_num) (by norm_num) (by norm_num [mathRotZero])
      ⟨buildingW, by norm_num, by norm_num [EnemyChaser.overlapsBuilding,
        EnemyChaser.getBoundingBox, EnemyChaser.buildingBox, EnemyChaser.integrate,
        mathRotZero, ecfgW, buildingW, chaserW]⟩).2.2.1⟩

/-!
## Collision engine (`CollisionSystem.js`)

The effects/sound collaborators are modelled by presence flags: every
effects call the engine makes exists on `EffectsSystem` or is optional-
chained, except the enemy handler's `createDamageIndicator(playerPos,
damage)`, whose argument `damage` is an undeclared identifier — evaluating
it throws a `ReferenceError` whenever an effects system is attached, which
aborts the rest of `CollisionSystem.update` (`errored` in the result).
-/

/-- A pooled roadway obstacle as the collision engine reads it. -/
structure RoadObstacle where
  posX : ℚ
  posZ : ℚ
  width : ℚ
  depth : ℚ
  height : ℚ
  isActive : Bool
  markedForRemoval : Bool
  nearMissRegistered : Bool
deriving DecidableEq, Repr

/-- A traffic car as the collision engine reads it (its bounding box uses
fixed half-extents 0.9 / 1.6 and height 1.5). -/
structure TrafficCarRef where
  posX : ℚ
  posZ : ℚ
deriving DecidableEq, Repr

/-- A city obstacle: the engine reads its precomputed `bounds` box. -/
structure CityObstacle where
  bounds : AABB
deriving DecidableEq, Repr

/-- A hazard rectangle (`City.hazards` entries). -/
structure Hazard where
  minX : ℚ
  minZ : ℚ
  maxX : ℚ
  maxZ : ℚ
deriving DecidableEq, Repr

/-- The world as `CollisionSystem` references it, plus its own cooldown and
the presence flags of the optional collaborators and callbacks. -/
structure CSystem where
  player : Player
  enemies : List Chaser
  obstacles : List RoadObstacle
  trafficCars : List TrafficCarRef
  buildings : List Building
  cityObstacles : List CityObstacle
  hazards : List Hazard
  hasTraffic : Bool
  hasCity : Bool
  hasEffects : Bool
  onPlayerHitObstacle : Bool
  onPlayerHitEnemy : Bool
  onNearMiss : Bool
  collisionCooldown : ℚ
deriving DecidableEq, Repr

/-- The discrete events the collision engine raises. -/
inductive CEvent where
  | hitObstacle
  | hitEnemy
  | nearMiss
deriving DecidableEq, Repr

/-- The outcome of one `CollisionSystem.update` call: the new state, the
events raised, and whether a `ReferenceError` escaped the call. -/
structure CResult where
  sys : CSystem
  events : List CEvent
  errored : Bool
deriving DecidableEq, Repr

namespace CollisionSystem

/-- `PlayerCar.getBoundingBox`. -/
def playerBox (pcfg : PlayerConfig) (p : Player) : AABB :=
  { min := { x := p.posX - pcfg.WIDTH / 2, y := 0, z := p.posZ - pcfg.LENGTH / 2 }
    max := { x := p.posX + pcfg.WIDTH / 2, y := pcfg.HEIGHT, z := p.posZ + pcfg.LENGTH / 2 } }

/-- `Obstacle.getBoundingBox`. -/
def obstacleBox (o : RoadObstacle) : AABB :=
  { min := { x := o.posX - o.width / 2, y := 0, z := o.posZ - o.depth / 2 }
    max := { x := o.posX + o.width / 2, y := o.height, z := o.posZ + o.depth / 2 } }

/-- `TrafficCar.getBoundingBox`. -/
def trafficBox (c : TrafficCarRef) : AABB :=
  { min := { x := c.posX - 9 / 10, y := 0, z := c.posZ - 8 / 5 }
    max := { x := c.posX + 9 / 10, y := 3 / 2, z := c.posZ + 8 / 5 } }

/-- `helpers.js` `distance2D`. -/
def distance2D (m : JsMath) (x1 z1 x2 z2 : ℚ) : ℚ :=
  m.sqrt ((x2 - x1) * (x2 - x1) + (z2 - z1) * (z2 - z1))

/-- `City.isHazard`. -/
def isHazard (hazards : List Hazard) (x z : ℚ) : Bool :=
  hazards.any fun h =>
    decide (h.minX ≤ x) && decide (x ≤ h.maxX) &&
    decide (h.minZ ≤ z) && decide (z ≤ h.maxZ)

/-- The knockback pattern shared by the obstacle/enemy/traffic/city-obstacle
handlers: `velocity += (playerPos − srcPos)/‖·‖ · k` when the distance is
positive. -/
def applyKnockback (m : JsMath) (k srcX srcZ : ℚ) (p : Player) : Player :=
  let dx := p.posX - srcX
  let dz := p.posZ - srcZ
  let mag := m.sqrt (dx * dx + dz * dz)
  if 0 < mag then { p with velX := p.velX + dx / mag * k, velZ := p.velZ + dz / mag * k }
  else p

/-- Scan for the first active obstacle whose box hits `box`; return it and
the list with exactly that obstacle marked for removal. -/
def scanObstacles (box : AABB) : List RoadObstacle →
    Option (RoadObstacle × List RoadObstacle)
  | [] => none
  | o :: rest =>
    if o.isActive && checkAABBCollision box (obstacleBox o) then
      some (o, { o with markedForRemoval := true } :: rest)
    else
      match scanObstacles box rest with
      | some (hit, rest2) => some (hit, o :: rest2)
      | none => none

/-- `_checkPlayerObstacleCollisions` + `_handlePlayerObstacleCollision`. -/
def obstaclePhase (m : JsMath) (pcfg : PlayerConfig) (st : CSystem) :
    CSystem × List CEvent :=
  if 0 < st.collisionCooldown then (st, [])
  else
    match scanObstacles (playerBox pcfg st.player) st.obstacles with
    | none => (st, [])
    | some (o, obstacles2) =>
      let player := PlayerCar.takeDamage pcfg.COLLISION_DAMAGE st.player
      let player := applyKnockback m 5 o.posX o.posZ player
      ({ st with player := player, obstacles := obstacles2, collisionCooldown := 300 },
        if st.onPlayerHitObstacle then [CEvent.hitObstacle] else [])

/-- `_checkPlayerEnemyCollision` + `_handlePlayerEnemyCollision`. When an
effects system is attached the handler evaluates the undeclared `damage`
identifier after `die()` and the cooldown write, so the knockback and the
`onPlayerHitEnemy` callback are skipped and the error escapes. -/
def enemyPhase (m : JsMath) (pcfg : PlayerConfig) (ecfg : EnemyConfig)
    (st : CSystem) : CSystem × List CEvent × Bool :=
  if 0 < st.collisionCooldown then (st, [], false)
  else
    match st.enemies.find? (fun en =>
        checkAABBCollision (playerBox pcfg st.player)
          (EnemyChaser.getBoundingBox ecfg en)) with
    | none => (st, [], false)
    | some _ =>
      let st := { st with player := PlayerCar.die st.player, collisionCooldown := 300 }
      if st.hasEffects then (st, [], true)
      else
        let st :=
          match st.enemies.find? (fun en =>
              checkAABBCollision (playerBox pcfg st.player)
                (EnemyChaser.getBoundingBox ecfg en)) with
          | some en =>
            { st with player := applyKnockback m 8 en.posX en.posZ st.player }
          | none => st
        (st, if st.onPlayerHitEnemy then [CEvent.hitEnemy] else [], false)

/-- `_checkPlayerTrafficCollisions` + `_handlePlayerTrafficCollision`. -/
def trafficPhase (m : JsMath) (pcfg : PlayerConfig) (st : CSystem) : CSystem :=
  if 0 < st.collisionCooldown then st
  else
    match st.trafficCars.find? (fun c =>
        checkAABBCollision (playerBox pcfg st.player) (trafficBox c)) with
    | none => st
    | some c =>
      let player := PlayerCar.takeDamage (pcfg.COLLISION_DAMAGE / 3) st.player
      let player := applyKnockback m 6 c.posX c.posZ player
      { st with player := player, collisionCooldown := 300 }

/-- `_handlePlayerBuildingCollision` acting on the player. -/
def buildingPush (pcfg : PlayerConfig) (bBox : AABB) (p : Player) : Player :=
  let centerX := (bBox.min.x + bBox.max.x) / 2
  let centerZ := (bBox.min.z + bBox.max.z) / 2
  let dx := p.posX - centerX
  let dz := p.posZ - centerZ
  let bw := bBox.max.x - bBox.min.x
  let bd := bBox.max.z - bBox.min.z
  let ndx := dx / bw
  let ndz := dz / bd
  let p :=
    if |ndz| < |ndx| then
      { p with
        posX := if 0 < ndx then bBox.max.x + 3 / 2 else bBox.min.x - 3 / 2
        velX := if 0 < ndx then 5 else -5 }
    else
      { p with
        posZ := if 0 < ndz then bBox.max.z + 3 / 2 else bBox.min.z - 3 / 2
        velZ := if 0 < ndz then 5 else -5 }
  PlayerCar.takeDamage (pcfg.COLLISION_DAMAGE / 2) p

/-- `_checkPlayerBuildingCollisions` (the engine rebuilds the same box the
chaser code derives from the mesh). -/
def buildingPhase (pcfg : PlayerConfig) (st : CSystem) : CSystem :=
  if 0 < st.collisionCooldown then st
  else
    match st.buildings.find? (fun b =>
        checkAABBCollision (playerBox pcfg st.player) (EnemyChaser.buildingBox b)) with
    | none => st
    | some b =>
      { st with
        player := buildingPush pcfg (EnemyChaser.buildingBox b) st.player
        collisionCooldown := 300 }

/-- `_checkPlayerCityObstacleCollisions` + its handler. -/
def cityObstaclePhase (m : JsMath) (pcfg : PlayerConfig) (st : CSystem) : CSystem :=
  if 0 < st.collisionCooldown then st
  else
    match st.cityObstacles.find? (fun c =>
        checkAABBCollision (playerBox pcfg st.player) c.bounds) with
    | none => st
    | some c =>
      let player := PlayerCar.takeDamage (pcfg.COLLISION_DAMAGE / 4) st.player
      let player := applyKnockback m 4 ((c.bounds.min.x + c.bounds.max.x) / 2)
        ((c.bounds.min.z + c.bounds.max.z) / 2) player
      { st with player := player, collisionCooldown := 300 }

/-- `_checkHazards` + `_handleFallHazard` (note: no cooldown guard). -/
def hazardPhase (st : CSystem) : CSystem :=
  if isHazard st.hazards st.player.posX st.player.posZ then
    if st.player.isAlive = false ∨ st.player.isFalling then st
    else
      { st with player := PlayerCar.startFalling st.player, collisionCooldown := 300 }
  else st

/-- `_checkNearMisses` over the active obstacles, in iteration order. -/
def nearMissScan (m : JsMath) (nearT px pz : ℚ) (hasCb : Bool) :
    List RoadObstacle → List RoadObstacle × List CEvent
  | [] => ([], [])
  | o :: rest =>
    let hit := o.isActive && decide (|o.posZ - pz| < 2) &&
      decide (distance2D m px pz o.posX o.posZ < nearT) && !o.nearMissRegistered
    let o2 := if hit then { o with nearMissRegistered := true } else o
    let r := nearMissScan m nearT px pz hasCb rest
    (o2 :: r.1, (if hit && hasCb then [CEvent.nearMiss] else []) ++ r.2)

/-- `_checkNearMisses`. -/
def nearMissPhase (m : JsMath) (nearT : ℚ) (st : CSystem) : CSystem × List CEvent :=
  let r := nearMissScan m nearT st.player.posX st.player.posZ st.onNearMiss st.obstacles
  ({ st with obstacles := r.1 }, r.2)

/-- `CollisionSystem.update`: cooldown countdown, then the player collision
checks in their fixed order — obstacles, enemy, traffic (when a traffic
manager is attached), buildings / city obstacles / hazards (when a city is
attached) — and finally the near-miss pass. An enemy-handler
`ReferenceError` aborts the remaining phases. -/
def update (m : JsMath) (pcfg : PlayerConfig) (ecfg : EnemyConfig) (nearT : ℚ)
    (dt : ℚ) (st : CSystem) : CResult :=
  let st :=
    if 0 < st.collisionCooldown then
      { st with collisionCooldown := st.collisionCooldown - dt * 1000 }
    else st
  let r1 := obstaclePhase m pcfg st
  let r2 := enemyPhase m pcfg ecfg r1.1
  if r2.2.2 then { sys := r2.1, events := r1.2 ++ r2.2.1, errored := true }
  else
    let st := r2.1
    let st := if st.hasTraffic then trafficPhase m pcfg st else st
    let st :=
      if st.hasCity then hazardPhase (cityObstaclePhase m pcfg (buildingPhase pcfg st))
      else st
    let r3 := nearMissPhase m nearT st
    { sys := r3.1, events := r1.2 ++ r2.2.1 ++ r3.2, errored := false }

end CollisionSystem

namespace CollisionSystem

theorem obstaclePhase_skip (m : JsMath) (pcfg : PlayerConfig) (st : CSystem)
    (h : 0 < st.collisionCooldown) : obstaclePhase m pcfg st = (st, []) := by
  simp [obstaclePhase, h]

theorem enemyPhase_skip (m : JsMath) (pcfg : PlayerConfig) (ecfg : EnemyConfig)
    (st : CSystem) (h : 0 < st.collisionCooldown) :
    enemyPhase m pcfg ecfg st = (st, [], false) := by
  simp [enemyPhase, h]

theorem trafficPhase_skip (m : JsMath) (pcfg : PlayerConfig) (st : CSystem)
    (h : 0 < st.collisionCooldown) : trafficPhase m pcfg st = st := by
  simp [trafficPhase, h]

theorem buildingPhase_skip (pcfg : PlayerConfig) (st : CSystem)
    (h : 0 < st.collisionCooldown) : buildingPhase pcfg st = st := by
  simp [buildingPhase, h]

theorem cityObstaclePhase_skip (m : JsMath) (pcfg : PlayerConfig) (st : CSystem)
    (h : 0 < st.collisionCooldown) : cityObstaclePhase m pcfg st = st := by
  simp [cityObstaclePhase, h]

theorem applyKnockback_preserves (m : JsMath) (k sx sz : ℚ) (p : Player) :
    (applyKnockback m k sx sz p).health = p.health ∧
    (applyKnockback m k sx sz p).isAlive = p.isAlive ∧
    (applyKnockback m k sx sz p).posX = p.posX ∧
    (applyKnockback m k sx sz p).posZ = p.posZ ∧
    (applyKnockback m k sx sz p).isFalling = p.isFalling ∧
    (applyKnockback m k sx sz p).speed = p.speed := by
  simp only [applyKnockback]
  split_ifs <;> exact ⟨rfl, rfl, rfl, rfl, rfl, rfl⟩

theorem takeDamage_spec (amount : ℚ) (p : Player) (h : amount < p.health) :
    PlayerCar.takeDamage amount p = { p with health := p.health - amount } := by
  have hmaxx : Max.max (0 : ℚ) (p.health - amount) = p.health - amount :=
    max_eq_right (by linarith)
  simp only [PlayerCar.takeDamage, hmaxx]
  rw [if_neg (by linarith : ¬p.health - amount ≤ 0)]

theorem hazardPhase_preserves (st : CSystem) :
    (hazardPhase st).player.health = st.player.health ∧
    (hazardPhase st).player.isAlive = st.player.isAlive ∧
    (hazardPhase st).player.posX = st.player.posX ∧
    (hazardPhase st).player.posZ = st.player.posZ := by
  simp only [hazardPhase, PlayerCar.startFalling]
  split_ifs <;> exact ⟨rfl, rfl, rfl, rfl⟩

theorem hazardPhase_cooldown (st : CSystem) (h : st.collisionCooldown = 300) :
    (hazardPhase st).collisionCooldown = 300 := by
  simp only [hazardPhase]
  split_ifs <;> simpa using h

theorem nearMissScan_events (m : JsMath) (nearT px pz : ℚ) (hasCb : Bool) :
    ∀ l : List RoadObstacle, ∀ e ∈ (nearMissScan m nearT px pz hasCb l).2,
      e = CEvent.nearMiss := by
  intro l
  induction l with
  | nil => intro e he; simp [nearMissScan] at he
  | cons o rest ih =>
    intro e he
    simp only [nearMissScan, List.mem_append] at he
    rcases he with he | he
    · rcases Bool.eq_false_or_eq_true (o.isActive && decide (|o.posZ - pz| < 2) &&
          decide (distance2D m px pz o.posX o.posZ < nearT) && !o.nearMissRegistered
          && hasCb) with hb | hb
      · simp only [Bool.and_assoc] at hb he ⊢
        simp_all
      · simp_all
    · exact ih e he

theorem nearMissScan_marked (m : JsMath) (nearT px pz : ℚ) (hasCb : Bool) :
    ∀ l : List RoadObstacle,
      ((nearMissScan m nearT px pz hasCb l).1).map (fun o => o.markedForRemoval) =
        l.map (fun o => o.markedForRemoval) := by
  intro l
  induction l with
  | nil => rfl
  | cons o rest ih =>
    simp only [nearMissScan, List.map_cons, ih]
    split_ifs <;> rfl

end CollisionSystem

/-- C10 (amended): within one `CollisionSystem.update` tick the player
categories are checked in the fixed order obstacle, chaser, traffic,
building, city obstacle, hazard, and a hit resolved in an earlier category
sets the cooldown that suppresses the chaser, traffic, building and
city-obstacle checks of the same tick — the hazard check alone ignores the
cooldown. In particular a player simultaneously overlapping an obstacle and
a chaser with the cooldown at 0 and health above the obstacle damage takes
exactly the obstacle damage, is not captured (`isAlive` stays true, no
`onPlayerHitEnemy`), and no `ReferenceError` is reached. -/
theorem collision_priority_obstacle_before_capture (m : JsMath)
    (pcfg : PlayerConfig) (ecfg : EnemyConfig) (nearT dt : ℚ) (st : CSystem)
    (o1 : RoadObstacle) (orest : List RoadObstacle)
    (hcd : st.collisionCooldown ≤ 0)
    (hobs : st.obstacles = o1 :: orest)
    (hact : o1.isActive = true)
    (hhit : checkAABBCollision (CollisionSystem.playerBox pcfg st.player)
      (CollisionSystem.obstacleBox o1) = true)
    (henemy : ∃ en ∈ st.enemies,
      checkAABBCollision (CollisionSystem.playerBox pcfg st.player)
        (EnemyChaser.getBoundingBox ecfg en) = true)
    (halive : st.player.isAlive = true)
    (hdmg : pcfg.COLLISION_DAMAGE < st.player.health)
    (hflag : st.onPlayerHitObstacle = true) :
    (CollisionSystem.update m pcfg ecfg nearT dt st).sys.player.health =
        st.player.health - pcfg.COLLISION_DAMAGE ∧
    (CollisionSystem.update m pcfg ecfg nearT dt st).sys.player.isAlive = true ∧
    (CollisionSystem.update m pcfg ecfg nearT dt st).sys.collisionCooldown = 300 ∧
    (CollisionSystem.update m pcfg ecfg nearT dt st).errored = false ∧
    CEvent.hitObstacle ∈ (CollisionSystem.update m pcfg ecfg nearT dt st).events ∧
    CEvent.hitEnemy ∉ (CollisionSystem.update m pcfg ecfg nearT dt st).events := by
  have hnotlt : ¬0 < st.collisionCooldown := not_lt.mpr hcd
  have hscan : CollisionSystem.scanObstacles
      (CollisionSystem.playerBox pcfg st.player) st.obstacles =
      some (o1, { o1 with markedForRemoval := true } :: orest) := by
    rw [hobs]
    simp [CollisionSystem.scanObstacles, hact, hhit]
  have hdam := CollisionSystem.takeDamage_spec pcfg.COLLISION_DAMAGE st.player hdmg
  have hobsphase : CollisionSystem.obstaclePhase m pcfg st =
      ({ st with
          player := CollisionSystem.applyKnockback m 5 o1.posX o1.posZ
            { st.player with health := st.player.health - pcfg.COLLISION_DAMAGE }
          obstacles := { o1 with markedForRemoval := true } :: orest
          collisionCooldown := 300 }, [CEvent.hitObstacle]) := by
    simp only [CollisionSystem.obstaclePhase, if_neg hnotlt, hscan, hdam, hflag,
      if_pos]
  rcases CollisionSystem.applyKnockback_preserves m 5 o1.posX o1.posZ
      { st.player with health := st.player.health - pcfg.COLLISION_DAMAGE }
    with ⟨kh, ka, kx, kz, kf, ks⟩
  set stA : CSystem :=
    { st with
      player := CollisionSystem.applyKnockback m 5 o1.posX o1.posZ
        { st.player with health := st.player.health - pcfg.COLLISION_DAMAGE }
      obstacles := { o1 with markedForRemoval := true } :: orest
      collisionCooldown := 300 } with hstA
  have hcdA : (0 : ℚ) < stA.collisionCooldown := by
    rw [hstA]; norm_num
  have henemyskip := CollisionSystem.enemyPhase_skip m pcfg ecfg stA hcdA
  have htraffic := CollisionSystem.trafficPhase_skip m pcfg stA hcdA
  have hbuilding := CollisionSystem.buildingPhase_skip pcfg stA hcdA
  have hcity := CollisionSystem.cityObstaclePhase_skip m pcfg stA hcdA
  have hupdate : CollisionSystem.update m pcfg ecfg nearT dt st =
      { sys := (CollisionSystem.nearMissPhase m nearT
          (if stA.hasCity then CollisionSystem.hazardPhase stA else stA)).1
        events := [CEvent.hitObstacle] ++ [] ++
          (CollisionSystem.nearMissPhase m nearT
            (if stA.hasCity then CollisionSystem.hazardPhase stA else stA)).2
        errored := false } := by
    simp only [CollisionSystem.update, if_neg hnotlt, hobsphase, ← hstA, henemyskip,
      htraffic, hbuilding, hcity, ite_self, Bool.false_eq_true, if_false]
  set stB : CSystem := if stA.hasCity then CollisionSystem.hazardPhase stA else stA
    with hstB
  have hBhealth : stB.player.health = stA.player.health := by
    rw [hstB]; split_ifs
    · exact (CollisionSystem.hazardPhase_preserves stA).1
    · rfl
  have hBalive : stB.player.isAlive = stA.player.isAlive := by
    rw [hstB]; split_ifs
    · exact (CollisionSystem.hazardPhase_preserves stA).2.1
    · rfl
  have hBcd : stB.collisionCooldown = 300 := by
    rw [hstB]; split_ifs
    · exact CollisionSystem.hazardPhase_cooldown stA (by rw [hstA])
    · rw [hstA]
  have hAhealth : stA.player.health = st.player.health - pcfg.COLLISION_DAMAGE := by
    rw [hstA]
    exact kh
  have hAalive : stA.player.isAlive = true := by
    rw [hstA]
    rw [ka]
    exact halive
  refine ⟨?_, ?_, ?_, ?_, ?_, ?_⟩
  · rw [hupdate]
    show stB.player.health = _
    rw [hBhealth, hAhealth]
  · rw [hupdate]
    show stB.player.isAlive = _
    rw [hBalive, hAalive]
  · rw [hupdate]
    show stB.collisionCooldown = 300
    exact hBcd
  · rw [hupdate]
  · rw [hupdate]
    simp
  · rw [hupdate]
    intro hmem
    simp only [List.append_nil, List.mem_append, List.mem_singleton] at hmem
    rcases hmem with hmem | hmem
    · simp at hmem
    · have := CollisionSystem.nearMissScan_events m nearT stB.player.posX
        stB.player.posZ stB.onNearMiss stB.obstacles CEvent.hitEnemy
        (by simpa [CollisionSystem.nearMissPhase] using hmem)
      simp at this

/-- A pooled obstacle sitting exactly at the origin. -/
def obstacleAtOrigin : RoadObstacle :=
  { posX := 0, posZ := 0, width := 3 / 2, depth := 3 / 2, height := 3 / 2
    isActive := true, markedForRemoval := false, nearMissRegistered := false }

/-- A chaser overlapping the player below. -/
def chaserNear : Chaser :=
  { posX := 1, posZ := 1, velX := 0, velZ := 0, rotation := 0, speed := 5 }

/-- The C10 witness world: the player overlaps both `obstacleAtOrigin` and
`chaserNear`, cooldown 0. -/
def c10WState : CSystem :=
  { player := playerC2, enemies := [chaserNear], obstacles := [obstacleAtOrigin]
    trafficCars := [], buildings := [], cityObstacles := [], hazards := []
    hasTraffic := false, hasCity := true, hasEffects := true
    onPlayerHitObstacle := true, onPlayerHitEnemy := true, onNearMiss := false
    collisionCooldown := 0 }

theorem collision_priority_obstacle_before_capture_witness :
    (CollisionSystem.update mathRotZero cfgC2 ecfgW 3 (1 / 60) c10WState).sys.player.health =
        c10WState.player.health - cfgC2.COLLISION_DAMAGE ∧
    (CollisionSystem.update mathRotZero cfgC2 ecfgW 3 (1 / 60) c10WState).sys.player.isAlive
        = true :=
  ⟨(collision_priority_obstacle_before_capture mathRotZero cfgC2 ecfgW 3 (1 / 60)
      c10WState obstacleAtOrigin [] (by norm_num [c10WState]) rfl rfl
      (by norm_num [checkAABBCollision, CollisionSystem.playerBox,
        CollisionSystem.obstacleBox, c10WState, playerC2, cfgC2, obstacleAtOrigin])
      ⟨chaserNear, by norm_num [c10WState],
        by norm_num [checkAABBCollision, CollisionSystem.playerBox,
          EnemyChaser.getBoundingBox, c10WState, playerC2, cfgC2, ecfgW, chaserNear]⟩
      rfl (by norm_num [c10WState, playerC2, cfgC2]) rfl).1,
   (collision_priority_obstacle_before_capture mathRotZero cfgC2 ecfgW 3 (1 / 60)
      c10WState obstacleAtOrigin [] (by norm_num [c10WState]) rfl rfl
      (by norm_num [checkAABBCollision, CollisionSystem.playerBox,
        CollisionSystem.obstacleBox, c10WState, playerC2, cfgC2, obstacleAtOrigin])
      ⟨chaserNear, by norm_num [c10WState],
        by norm_num [checkAABBCollision, CollisionSystem.playerBox,
          EnemyChaser.getBoundingBox, c10WState, playerC2, cfgC2, ecfgW, chaserNear]⟩
      rfl (by norm_num [c10WState, playerC2, cfgC2]) rfl).2.1⟩

/-- The C10 counterexample world: obstacle overlap and a hazard directly
under the player, cooldown 0. -/
def c10CState : CSystem :=
  { player := playerC2, enemies := [], obstacles := [obstacleAtOrigin]
    trafficCars := [], buildings := [], cityObstacles := []
    hazards := [{ minX := -5, minZ := -1, maxX := 5, maxZ := 1 }]
    hasTraffic := false, hasCity := true, hasEffects := true
    onPlayerHitObstacle := true, onPlayerHitEnemy := true, onNearMiss := false
    collisionCooldown := 0 }

/-- C10: refuted at a concrete input. In one tick with the cooldown at 0 the
obstacle hit is resolved (health 100 → 80, cooldown set to 300 ms), yet the
hazard — the last category of the same tick — still fires (`isFalling`
becomes true): the cooldown set by an earlier category does not suppress
the hazard check of the same tick. -/
theorem hazard_not_suppressed_same_tick :
    (CollisionSystem.update mathRotZero cfgC2 ecfgW 3 (1 / 60) c10CState).sys.player.health
        = 80 ∧
    (CollisionSystem.update mathRotZero cfgC2 ecfgW 3 (1 / 60) c10CState).sys.collisionCooldown
        = 300 ∧
    (CollisionSystem.update mathRotZero cfgC2 ecfgW 3 (1 / 60) c10CState).sys.player.isFalling
        = true ∧
    (CollisionSystem.update mathRotZero cfgC2 ecfgW 3 (1 / 60) c10CState).sys.player.isAlive
        = true := by
  norm_num [CollisionSystem.update, CollisionSystem.obstaclePhase,
    CollisionSystem.enemyPhase, CollisionSystem.trafficPhase,
    CollisionSystem.buildingPhase, CollisionSystem.cityObstaclePhase,
    CollisionSystem.hazardPhase, CollisionSystem.nearMissPhase,
    CollisionSystem.nearMissScan, CollisionSystem.scanObstacles,
    CollisionSystem.playerBox, CollisionSystem.obstacleBox,
    CollisionSystem.applyKnockback, CollisionSystem.distance2D,
    CollisionSystem.isHazard, checkAABBCollision, PlayerCar.takeDamage,
    PlayerCar.die, PlayerCar.startFalling, mathRotZero, cfgC2, ecfgW, playerC2,
    obstacleAtOrigin, c10CState, List.find?, List.any]

namespace CollisionSystem

theorem hazardPhase_noop (st : CSystem)
    (h : isHazard st.hazards st.player.posX st.player.posZ = false) :
    hazardPhase st = st := by
  simp [hazardPhase, h]

/-- A tick that starts inside the cooldown (still positive after the
decrement) with the player clear of hazards resolves nothing: the player is
untouched, the cooldown only counts down, no obstacle is (un)marked and no
collision event is raised. -/
theorem update_suppressed (m : JsMath) (pcfg : PlayerConfig) (ecfg : EnemyConfig)
    (nearT dt : ℚ) (st : CSystem)
    (hcdpos : 0 < st.collisionCooldown)
    (hleft : 0 < st.collisionCooldown - dt * 1000)
    (hhaz : isHazard st.hazards st.player.posX st.player.posZ = false) :
    (update m pcfg ecfg nearT dt st).sys.player = st.player ∧
    (update m pcfg ecfg nearT dt st).sys.collisionCooldown =
        st.collisionCooldown - dt * 1000 ∧
    (update m pcfg ecfg nearT dt st).sys.obstacles.map
        (fun o => o.markedForRemoval) =
      st.obstacles.map (fun o => o.markedForRemoval) ∧
    (update m pcfg ecfg nearT dt st).errored = false ∧
    CEvent.hitObstacle ∉ (update m pcfg ecfg nearT dt st).events ∧
    CEvent.hitEnemy ∉ (update m pcfg ecfg nearT dt st).events := by
  set stD : CSystem := { st with collisionCooldown := st.collisionCooldown - dt * 1000 }
    with hstD
  have hcdD : (0 : ℚ) < stD.collisionCooldown := hleft
  have hup : update m pcfg ecfg nearT dt st =
      { sys := (nearMissPhase m nearT
          (if stD.hasCity then hazardPhase stD else stD)).1
        events := [] ++ [] ++
          (nearMissPhase m nearT
            (if stD.hasCity then hazardPhase stD else stD)).2
        errored := false } := by
    simp only [update, if_pos hcdpos, ← hstD, obstaclePhase_skip m pcfg stD hcdD,
      enemyPhase_skip m pcfg ecfg stD hcdD, trafficPhase_skip m pcfg stD hcdD,
      buildingPhase_skip pcfg stD hcdD, cityObstaclePhase_skip m pcfg stD hcdD,
      ite_self, Bool.false_eq_true, if_false]
  have hhazD : isHazard stD.hazards stD.player.posX stD.player.posZ = false := hhaz
  have hB : (if stD.hasCity then hazardPhase stD else stD) = stD := by
    rw [hazardPhase_noop stD hhazD, ite_self]
  rw [hup, hB]
  refine ⟨rfl, rfl, nearMissScan_marked m nearT stD.player.posX stD.player.posZ
    stD.onNearMiss stD.obstacles, rfl, ?_, ?_⟩
  · intro hmem
    simp only [List.nil_append, CollisionSystem.nearMissPhase] at hmem
    have := nearMissScan_events m nearT stD.player.posX stD.player.posZ
      stD.onNearMiss stD.obstacles CEvent.hitObstacle hmem
    simp at this
  · intro hmem
    simp only [List.nil_append, CollisionSystem.nearMissPhase] at hmem
    have := nearMissScan_events m nearT stD.player.posX stD.player.posZ
      stD.onNearMiss stD.obstacles CEvent.hitEnemy hmem
    simp at this

end CollisionSystem

/-- C4 (amended): with two (or more) overlapping active obstacles and the
cooldown at 0, exactly one obstacle collision — the first in iteration
order — is resolved in the tick: the first obstacle is marked for removal,
the second is not, the player takes one dose of damage, and the cooldown is
set to 300 ms. On the following tick, while the decremented cooldown is
still positive, no obstacle, chaser, traffic, building or city-obstacle
collision is resolved even though the overlap persists (positions are
unchanged) — only the hazard check is exempt from the cooldown (the player
is assumed clear of hazards here; the counterexample shows the hazard
firing during the cooldown). -/
theorem collision_cooldown_single_resolution (m : JsMath) (pcfg : PlayerConfig)
    (ecfg : EnemyConfig) (nearT dtA dtB : ℚ) (st : CSystem)
    (o1 o2 : RoadObstacle) (orest : List RoadObstacle)
    (hcd : st.collisionCooldown ≤ 0)
    (hobs : st.obstacles = o1 :: o2 :: orest)
    (hact1 : o1.isActive = true) (hact2 : o2.isActive = true)
    (hhit1 : checkAABBCollision (CollisionSystem.playerBox pcfg st.player)
      (CollisionSystem.obstacleBox o1) = true)
    (hhit2 : checkAABBCollision (CollisionSystem.playerBox pcfg st.player)
      (CollisionSystem.obstacleBox o2) = true)
    (hm2 : o2.markedForRemoval = false)
    (halive : st.player.isAlive = true)
    (hdmg : pcfg.COLLISION_DAMAGE < st.player.health)
    (hdtB : dtB * 1000 < 300)
    (hhaz : CollisionSystem.isHazard st.hazards st.player.posX st.player.posZ
      = false) :
    (CollisionSystem.update m pcfg ecfg nearT dtA st).sys.player.health =
        st.player.health - pcfg.COLLISION_DAMAGE ∧
    (CollisionSystem.update m pcfg ecfg nearT dtA st).sys.collisionCooldown = 300 ∧
    (CollisionSystem.update m pcfg ecfg nearT dtA st).sys.obstacles.map
        (fun o => o.markedForRemoval) =
      true :: false :: orest.map (fun o => o.markedForRemoval) ∧
    (CollisionSystem.update m pcfg ecfg nearT dtA st).sys.player.posX =
        st.player.posX ∧
    (CollisionSystem.update m pcfg ecfg nearT dtA st).sys.player.posZ =
        st.player.posZ ∧
    (CollisionSystem.update m pcfg ecfg nearT dtB
        (CollisionSystem.update m pcfg ecfg nearT dtA st).sys).sys.player.health =
      st.player.health - pcfg.COLLISION_DAMAGE ∧
    (CollisionSystem.update m pcfg ecfg nearT dtB
        (CollisionSystem.update m pcfg ecfg nearT dtA st).sys).sys.player.isAlive =
      true ∧
    (CollisionSystem.update m pcfg ecfg nearT dtB
        (CollisionSystem.update m pcfg ecfg nearT dtA st).sys).sys.collisionCooldown =
      300 - dtB * 1000 ∧
    (CollisionSystem.update m pcfg ecfg nearT dtB
        (CollisionSystem.update m pcfg ecfg nearT dtA st).sys).sys.obstacles.map
        (fun o => o.markedForRemoval) =
      true :: false :: orest.map (fun o => o.markedForRemoval) ∧
    CEvent.hitObstacle ∉ (CollisionSystem.update m pcfg ecfg nearT dtB
        (CollisionSystem.update m pcfg ecfg nearT dtA st).sys).events ∧
    CEvent.hitEnemy ∉ (CollisionSystem.update m pcfg ecfg nearT dtB
        (CollisionSystem.update m pcfg ecfg nearT dtA st).sys).events := by
  have hnotlt : ¬0 < st.collisionCooldown := not_lt.mpr hcd
  have hscan : CollisionSystem.scanObstacles
      (CollisionSystem.playerBox pcfg st.player) st.obstacles =
      some (o1, { o1 with markedForRemoval := true } :: o2 :: orest) := by
    rw [hobs]
    simp [CollisionSystem.scanObstacles, hact1, hhit1]
  have hdam := CollisionSystem.takeDamage_spec pcfg.COLLISION_DAMAGE st.player hdmg
  have hobsphase : CollisionSystem.obstaclePhase m pcfg st =
      ({ st with
          player := CollisionSystem.applyKnockback m 5 o1.posX o1.posZ
            { st.player with health := st.player.health - pcfg.COLLISION_DAMAGE }
          obstacles := { o1 with markedForRemoval := true } :: o2 :: orest
          collisionCooldown := 300 },
        if st.onPlayerHitObstacle then [CEvent.hitObstacle] else []) := by
    simp only [CollisionSystem.obstaclePhase, if_neg hnotlt, hscan, hdam]
  rcases CollisionSystem.applyKnockback_preserves m 5 o1.posX o1.posZ
      { st.player with health := st.player.health - pcfg.COLLISION_DAMAGE }
    with ⟨kh, ka, kx, kz, kf, ks⟩
  set stA : CSystem :=
    { st with
      player := CollisionSystem.applyKnockback m 5 o1.posX o1.posZ
        { st.player with health := st.player.health - pcfg.COLLISION_DAMAGE }
      obstacles := { o1 with markedForRemoval := true } :: o2 :: orest
      collisionCooldown := 300 } with hstA
  have hcdA : (0 : ℚ) < stA.collisionCooldown := by rw [hstA]; norm_num
  have hupdate1 : CollisionSystem.update m pcfg ecfg nearT dtA st =
      { sys := (CollisionSystem.nearMissPhase m nearT
          (if stA.hasCity then CollisionSystem.hazardPhase stA else stA)).1
        events := (if st.onPlayerHitObstacle then [CEvent.hitObstacle] else []) ++
          [] ++
          (CollisionSystem.nearMissPhase m nearT
            (if stA.hasCity then CollisionSystem.hazardPhase stA else stA)).2
        errored := false } := by
    simp only [CollisionSystem.update, if_neg hnotlt, hobsphase, ← hstA,
      CollisionSystem.enemyPhase_skip m pcfg ecfg stA hcdA,
      CollisionSystem.trafficPhase_skip m pcfg stA hcdA,
      CollisionSystem.buildingPhase_skip pcfg stA hcdA,
      CollisionSystem.cityObstaclePhase_skip m pcfg stA hcdA,
      ite_self, Bool.false_eq_true, if_false]
  have hhazA : CollisionSystem.isHazard stA.hazards stA.player.posX
      stA.player.posZ = false := by
    have e1 : stA.player.posX = st.player.posX := kx
    have e2 : stA.player.posZ = st.player.posZ := kz
    have e3 : stA.hazards = st.hazards := rfl
    rw [e1, e2, e3]
    exact hhaz
  have hB : (if stA.hasCity then CollisionSystem.hazardPhase stA else stA) = stA := by
    rw [CollisionSystem.hazardPhase_noop stA hhazA, ite_self]
  rw [hupdate1, hB]
  have hAhealth : stA.player.health = st.player.health - pcfg.COLLISION_DAMAGE := kh
  have hAalive : stA.player.isAlive = true := by
    have : stA.player.isAlive = st.player.isAlive := ka
    rw [this]; exact halive
  have hAposX : stA.player.posX = st.player.posX := kx
  have hAposZ : stA.player.posZ = st.player.posZ := kz
  have hr1sys : (CollisionSystem.nearMissPhase m nearT stA).1.player = stA.player :=
    rfl
  have hr1cd : (CollisionSystem.nearMissPhase m nearT stA).1.collisionCooldown =
      stA.collisionCooldown := rfl
  have hr1marked : (CollisionSystem.nearMissPhase m nearT stA).1.obstacles.map
      (fun o => o.markedForRemoval) =
      true :: false :: orest.map (fun o => o.markedForRemoval) := by
    have hscanm := CollisionSystem.nearMissScan_marked m nearT stA.player.posX
      stA.player.posZ stA.onNearMiss stA.obstacles
    have hsta : stA.obstacles.map (fun o => o.markedForRemoval) =
        true :: o2.markedForRemoval :: orest.map (fun o => o.markedForRemoval) := rfl
    rw [show (CollisionSystem.nearMissPhase m nearT stA).1.obstacles =
        (CollisionSystem.nearMissScan m nearT stA.player.posX stA.player.posZ
          stA.onNearMiss stA.obstacles).1 from rfl]
    rw [hscanm, hsta, hm2]
  have hr1hazfree : CollisionSystem.isHazard
      (CollisionSystem.nearMissPhase m nearT stA).1.hazards
      (CollisionSystem.nearMissPhase m nearT stA).1.player.posX
      (CollisionSystem.nearMissPhase m nearT stA).1.player.posZ = false := by
    have e1 : (CollisionSystem.nearMissPhase m nearT stA).1.player = stA.player := rfl
    have e2 : (CollisionSystem.nearMissPhase m nearT stA).1.hazards = stA.hazards :=
      rfl
    rw [e1, e2]
    exact hhazA
  have hr1cd300 : (CollisionSystem.nearMissPhase m nearT stA).1.collisionCooldown =
      300 := hr1cd
  rcases CollisionSystem.update_suppressed m pcfg ecfg nearT dtB
      (CollisionSystem.nearMissPhase m nearT stA).1
      (by rw [hr1cd300]; norm_num)
      (by rw [hr1cd300]; linarith) hr1hazfree with ⟨s1, s2, s3, s4, s5, s6⟩
  refine ⟨?_, hr1cd300, hr1marked, ?_, ?_, ?_, ?_, ?_, ?_, s5, s6⟩
  · rw [show (CollisionSystem.nearMissPhase m nearT stA).1.player = stA.player from
      rfl, hAhealth]
  · rw [show (CollisionSystem.nearMissPhase m nearT stA).1.player = stA.player from
      rfl, hAposX]
  · rw [show (CollisionSystem.nearMissPhase m nearT stA).1.player = stA.player from
      rfl, hAposZ]
  · rw [s1]
    rw [show (CollisionSystem.nearMissPhase m nearT stA).1.player = stA.player from
      rfl, hAhealth]
  · rw [s1]
    rw [show (CollisionSystem.nearMissPhase m nearT stA).1.player = stA.player from
      rfl, hAalive]
  · rw [s2, hr1cd300]
  · rw [s3, hr1marked]

/-- A second pooled obstacle, also overlapping the player. -/
def obstacleAhead : RoadObstacle :=
  { posX := 0, posZ := 1, width := 3 / 2, depth := 3 / 2, height := 3 / 2
    isActive := true, markedForRemoval := false, nearMissRegistered := false }

/-- The C4 witness world: two overlapping active obstacles, cooldown 0. -/
def c4WState : CSystem :=
  { player := playerC2, enemies := [], obstacles := [obstacleAtOrigin, obstacleAhead]
    trafficCars := [], buildings := [], cityObstacles := [], hazards := []
    hasTraffic := false, hasCity := false, hasEffects := true
    onPlayerHitObstacle := true, onPlayerHitEnemy := true, onNearMiss := false
    collisionCooldown := 0 }

theorem collision_cooldown_single_resolution_witness :
    (CollisionSystem.update mathRotZero cfgC2 ecfgW 3 (1 / 60) c4WState).sys.obstacles.map
        (fun o => o.markedForRemoval) = [true, false] ∧
    (CollisionSystem.update mathRotZero cfgC2 ecfgW 3 (1 / 60)
        (CollisionSystem.update mathRotZero cfgC2 ecfgW 3 (1 / 60) c4WState).sys).sys.player.health
      = c4WState.player.health - cfgC2.COLLISION_DAMAGE :=
  ⟨(collision_cooldown_single_resolution mathRotZero cfgC2 ecfgW 3 (1 / 60) (1 / 60)
      c4WState obstacleAtOrigin obstacleAhead [] (by norm_num [c4WState]) rfl rfl rfl
      (by norm_num [checkAABBCollision, CollisionSystem.playerBox,
        CollisionSystem.obstacleBox, c4WState, playerC2, cfgC2, obstacleAtOrigin])
      (by norm_num [checkAABBCollision, CollisionSystem.playerBox,
        CollisionSystem.obstacleBox, c4WState, playerC2, cfgC2, obstacleAhead])
      rfl rfl (by norm_num [c4WState, playerC2, cfgC2]) (by norm_num) rfl).2.2.1,
   (collision_cooldown_single_resolution mathRotZero cfgC2 ecfgW 3 (1 / 60) (1 / 60)
      c4WState obstacleAtOrigin obstacleAhead [] (by norm_num [c4WState]) rfl rfl rfl
      (by norm_num [checkAABBCollision, CollisionSystem.playerBox,
        CollisionSystem.obstacleBox, c4WState, playerC2, cfgC2, obstacleAtOrigin])
      (by norm_num [checkAABBCollision, CollisionSystem.playerBox,
        CollisionSystem.obstacleBox, c4WState, playerC2, cfgC2, obstacleAhead])
      rfl rfl (by norm_num [c4WState, playerC2, cfgC2]) (by norm_num) rfl).2.2.2.2.2.1⟩

/-- The C4 counterexample world: an obstacle at the player and a hazard band
just ahead of the player's path. -/
def c4CState : CSystem :=
  { player := playerC2, enemies := [], obstacles := [obstacleAtOrigin]
    trafficCars := [], buildings := [], cityObstacles := []
    hazards := [{ minX := -5, minZ := 3 / 10, maxX := 5, maxZ := 10 }]
    hasTraffic := false, hasCity := true, hasEffects := true
    onPlayerHitObstacle := true, onPlayerHitEnemy := true, onNearMiss := false
    collisionCooldown := 0 }

/-- C4: refuted at a concrete input. Tick 1 resolves the obstacle hit
(health 100 → 80, cooldown 300 ms, player not falling); the player then
drives forward onto the hazard band; on tick 2 the cooldown is still
positive (300 − 1000/60 > 0), yet the hazard is resolved — `isFalling`
becomes true — so a player collision category is resolved before the
cooldown has counted down to 0. -/
theorem hazard_resolved_during_cooldown :
    (CollisionSystem.update mathRotZero cfgC2 ecfgW 3 (1 / 60) c4CState).sys.player.health
        = 80 ∧
    (CollisionSystem.update mathRotZero cfgC2 ecfgW 3 (1 / 60) c4CState).sys.collisionCooldown
        = 300 ∧
    (CollisionSystem.update mathRotZero cfgC2 ecfgW 3 (1 / 60) c4CState).sys.player.isFalling
        = false ∧
    (0 : ℚ) < 300 - (1 / 60) * 1000 ∧
    (CollisionSystem.update mathRotZero cfgC2 ecfgW 3 (1 / 60)
        { (CollisionSystem.update mathRotZero cfgC2 ecfgW 3 (1 / 60) c4CState).sys with
          player := PlayerCar.update mathRotZero cfgC2 inputNone (1 / 60)
            (CollisionSystem.update mathRotZero cfgC2 ecfgW 3 (1 / 60)
              c4CState).sys.player }).sys.player.isFalling = true := by
  norm_num [CollisionSystem.update, CollisionSystem.obstaclePhase,
    CollisionSystem.enemyPhase, CollisionSystem.trafficPhase,
    CollisionSystem.buildingPhase, CollisionSystem.cityObstaclePhase,
    CollisionSystem.hazardPhase, CollisionSystem.nearMissPhase,
    CollisionSystem.nearMissScan, CollisionSystem.scanObstacles,
    CollisionSystem.playerBox, CollisionSystem.obstacleBox,
    CollisionSystem.applyKnockback, CollisionSystem.distance2D,
    CollisionSystem.isHazard, checkAABBCollision, PlayerCar.takeDamage,
    PlayerCar.die, PlayerCar.startFalling, PlayerCar.update, PlayerCar.updateBoost,
    PlayerCar.applyInput, PlayerCar.updatePosition, PlayerCar.activateBoost,
    PlayerCar.deactivateBoost, inputNone, mathRotZero, cfgC2, ecfgW, playerC2,
    obstacleAtOrigin, c4CState, List.find?, List.any]

/-- The C3 world: an effects system is attached (as `main.js` wires it), a
chaser overlaps the player, the cooldown is 0. -/
def c3State : CSystem :=
  { player := playerC2, enemies := [chaserNear], obstacles := []
    trafficCars := [], buildings := [], cityObstacles := [], hazards := []
    hasTraffic := false, hasCity := false, hasEffects := true
    onPlayerHitObstacle := true, onPlayerHitEnemy := true, onNearMiss := true
    collisionCooldown := 0 }

/-- C3: evaluated at the failing input. With an effects system attached and
a chaser overlapping the player at cooldown 0, the capture does set
`isAlive = false` and the cooldown, but the handler then evaluates the
undeclared identifier `damage` (a `ReferenceError`): the tick ends with the
error escaping, the knockback impulse never applied (velocity unchanged)
and the `onPlayerHitEnemy` event never raised despite being registered. -/
theorem chaser_capture_reference_error :
    (CollisionSystem.update mathRotZero cfgC2 ecfgW 3 (1 / 60) c3State).errored
        = true ∧
    (CollisionSystem.update mathRotZero cfgC2 ecfgW 3 (1 / 60) c3State).sys.player.isAlive
        = false ∧
    (CollisionSystem.update mathRotZero cfgC2 ecfgW 3 (1 / 60) c3State).sys.collisionCooldown
        = 300 ∧
    (CollisionSystem.update mathRotZero cfgC2 ecfgW 3 (1 / 60) c3State).events = [] ∧
    (CollisionSystem.update mathRotZero cfgC2 ecfgW 3 (1 / 60) c3State).sys.player.velX
        = playerC2.velX ∧
    (CollisionSystem.update mathRotZero cfgC2 ecfgW 3 (1 / 60) c3State).sys.player.velZ
        = playerC2.velZ := by
  norm_num [CollisionSystem.update, CollisionSystem.obstaclePhase,
    CollisionSystem.enemyPhase, CollisionSystem.trafficPhase,
    CollisionSystem.buildingPhase, CollisionSystem.cityObstaclePhase,
    CollisionSystem.hazardPhase, CollisionSystem.nearMissPhase,
    CollisionSystem.nearMissScan, CollisionSystem.scanObstacles,
    CollisionSystem.playerBox, CollisionSystem.obstacleBox,
    EnemyChaser.getBoundingBox, CollisionSystem.applyKnockback,
    CollisionSystem.distance2D, CollisionSystem.isHazard, checkAABBCollision,
    PlayerCar.takeDamage, PlayerCar.die, PlayerCar.startFalling, mathRotZero,
    cfgC2, ecfgW, playerC2, chaserNear, c3State, List.find?, List.any]

/-!
## Simulation loop (`GameEngine.js`, `GameLoop`)

A registered callback is a state transformer that returns the state it
reached together with the exception it threw, if any (a JavaScript callback
can mutate part of the world before throwing). `GameLoop._update` wraps
every invocation in `try`/`catch` and logs the error with `console.error`,
so a throw never stops the callback loop; `_render` has its own
`try`/`catch`.
-/

namespace GameLoop

/-- The `for`/`try`/`catch` loop of `GameLoop._update` over the registered
callbacks, also counting invocations. -/
def runCallbacks {σ ε : Type} : List (σ → σ × Option ε) → σ → σ × List ε × ℕ
  | [], s => (s, [], 0)
  | cb :: rest, s =>
    let r := cb s
    let next := runCallbacks rest r.1
    (next.1, r.2.toList ++ next.2.1, next.2.2 + 1)

/-- `n` consecutive fixed physics steps. -/
def runSteps {σ ε : Type} (cbs : List (σ → σ × Option ε)) : ℕ → σ → σ × List ε × ℕ
  | 0, s => (s, [], 0)
  | n + 1, s =>
    let r := runCallbacks cbs s
    let rest := runSteps cbs n r.1
    (rest.1, r.2.1 ++ rest.2.1, r.2.2 + rest.2.2)

/-- The outcome of `GameLoop._update` for one frame. -/
structure UpdateResult (σ ε : Type) where
  state : σ
  errors : List ε
  invoked : ℕ
  steps : ℕ
  accumulated : ℚ
deriving Repr

/-- `GameLoop._update`: add the frame delta to the accumulator, then the
`while (accumulatedTime ≥ fixedDelta)` loop; for `0 < fixedDelta` it runs
exactly `⌊(accumulated + dt) / fixedDelta⌋` times (clamped at zero) and
leaves the remainder in the accumulator. -/
def updateLoop {σ ε : Type} (fixedDelta : ℚ) (cbs : List (σ → σ × Option ε))
    (accumulated dt : ℚ) (s : σ) : UpdateResult σ ε :=
  let total := accumulated + dt
  let n := (⌊total / fixedDelta⌋).toNat
  let r := runSteps cbs n s
  { state := r.1, errors := r.2.1, invoked := r.2.2, steps := n
    accumulated := total - n * fixedDelta }

/-- The outcome of one `GameLoop._loop` frame. -/
structure FrameResult (σ ε : Type) where
  state : σ
  errors : List ε
  invoked : ℕ
  steps : ℕ
  accumulated : ℚ
  rendered : Bool
deriving Repr

/-- The frame tail of `GameLoop._loop`: `_update` unless paused, then
`_render` always (even when paused, even after callback errors). -/
def frame {σ ε : Type} (fixedDelta : ℚ) (cbs : List (σ → σ × Option ε))
    (renderCb : Option (σ → σ × Option ε)) (paused : Bool)
    (accumulated dt : ℚ) (s : σ) : FrameResult σ ε :=
  let u : UpdateResult σ ε :=
    if paused then
      { state := s, errors := [], invoked := 0, steps := 0
        accumulated := accumulated }
    else updateLoop fixedDelta cbs accumulated dt s
  match renderCb with
  | some rcb =>
    let r := rcb u.state
    { state := r.1, errors := u.errors ++ r.2.toList, invoked := u.invoked
      steps := u.steps, accumulated := u.accumulated, rendered := true }
  | none =>
    { state := u.state, errors := u.errors, invoked := u.invoked
      steps := u.steps, accumulated := u.accumulated, rendered := false }

/-- Silence a callback: same state effect, no exception. -/
def errSilenced {σ ε : Type} (cb : σ → σ × Option ε) : σ → σ × Option ε :=
  fun s => ((cb s).1, none)

end GameLoop

theorem runCallbacks_invoked {σ ε : Type} :
    ∀ (cbs : List (σ → σ × Option ε)) (s : σ),
      (GameLoop.runCallbacks cbs s).2.2 = cbs.length := by
  intro cbs
  induction cbs with
  | nil => intro s; rfl
  | cons cb rest ih =>
    intro s
    simp [GameLoop.runCallbacks, ih]

theorem runSteps_invoked {σ ε : Type} (cbs : List (σ → σ × Option ε)) :
    ∀ (n : ℕ) (s : σ), (GameLoop.runSteps cbs n s).2.2 = n * cbs.length := by
  intro n
  induction n with
  | zero => intro s; simp [GameLoop.runSteps]
  | succ n ih =>
    intro s
    simp [GameLoop.runSteps, ih, runCallbacks_invoked, Nat.succ_mul, Nat.add_comm]

theorem runCallbacks_silenced {σ ε : Type} :
    ∀ (cbs : List (σ → σ × Option ε)) (s : σ),
      (GameLoop.runCallbacks (cbs.map GameLoop.errSilenced) s).1 =
          (GameLoop.runCallbacks cbs s).1 ∧
        (GameLoop.runCallbacks (cbs.map GameLoop.errSilenced) s).2.1 = [] ∧
        (GameLoop.runCallbacks (cbs.map GameLoop.errSilenced) s).2.2 =
          (GameLoop.runCallbacks cbs s).2.2 := by
  intro cbs
  induction cbs with
  | nil => intro s; exact ⟨rfl, rfl, rfl⟩
  | cons cb rest ih =>
    intro s
    rcases ih ((cb s).1) with ⟨h1, h2, h3⟩
    refine ⟨?_, ?_, ?_⟩ <;>
      simp [GameLoop.runCallbacks, GameLoop.errSilenced, h1, h2, h3]

theorem runSteps_silenced {σ ε : Type} (cbs : List (σ → σ × Option ε)) :
    ∀ (n : ℕ) (s : σ),
      (GameLoop.runSteps (cbs.map GameLoop.errSilenced) n s).1 =
          (GameLoop.runSteps cbs n s).1 ∧
        (GameLoop.runSteps (cbs.map GameLoop.errSilenced) n s).2.1 = [] ∧
        (GameLoop.runSteps (cbs.map GameLoop.errSilenced) n s).2.2 =
          (GameLoop.runSteps cbs n s).2.2 := by
  intro n
  induction n with
  | zero => intro s; exact ⟨rfl, rfl, rfl⟩
  | succ n ih =>
    intro s
    rcases runCallbacks_silenced cbs s with ⟨c1, c2, c3⟩
    rcases ih ((GameLoop.runCallbacks cbs s).1) with ⟨i1, i2, i3⟩
    refine ⟨?_, ?_, ?_⟩ <;>
      simp [GameLoop.runSteps, c1, c2, c3, i1, i2, i3]

/-- C8: callback failures are isolated. On an unpaused frame with a
registered render callback and a positive fixed step: every registered
callback is invoked on every fixed step of the tick (`invoked = steps ·
|callbacks|`); the render pass runs; the while-loop exit condition holds at
the end of the frame (the accumulator is below the fixed step); and the
frame is state-for-state identical to the frame in which no callback throws
(errors are caught and logged, never altering control flow), where the
silenced run reports no errors at all. -/
theorem gameLoop_isolates_callback_failures {σ ε : Type} (fixedDelta : ℚ)
    (cbs : List (σ → σ × Option ε)) (rcb : σ → σ × Option ε)
    (accumulated dt : ℚ) (s : σ) (h : 0 < fixedDelta) :
    (GameLoop.frame fixedDelta cbs (some rcb) false accumulated dt s).invoked =
        (GameLoop.frame fixedDelta cbs (some rcb) false accumulated dt s).steps *
          cbs.length ∧
    (GameLoop.frame fixedDelta cbs (some rcb) false accumulated dt s).rendered
        = true ∧
    (GameLoop.frame fixedDelta cbs (some rcb) false accumulated dt s).accumulated
        < fixedDelta ∧
    (GameLoop.frame fixedDelta (cbs.map GameLoop.errSilenced)
        (some (GameLoop.errSilenced rcb)) false accumulated dt s).state =
      (GameLoop.frame fixedDelta cbs (some rcb) false accumulated dt s).state ∧
    (GameLoop.frame fixedDelta (cbs.map GameLoop.errSilenced)
        (some (GameLoop.errSilenced rcb)) false accumulated dt s).invoked =
      (GameLoop.frame fixedDelta cbs (some rcb) false accumulated dt s).invoked ∧
    (GameLoop.frame fixedDelta (cbs.map GameLoop.errSilenced)
        (some (GameLoop.errSilenced rcb)) false accumulated dt s).errors = [] := by
  rcases runSteps_silenced cbs ((⌊(accumulated + dt) / fixedDelta⌋).toNat) s
    with ⟨s1, s2, s3⟩
  have hinv := runSteps_invoked cbs ((⌊(accumulated + dt) / fixedDelta⌋).toNat) s
  have hrem : accumulated + dt -
      ((⌊(accumulated + dt) / fixedDelta⌋).toNat : ℚ) * fixedDelta < fixedDelta := by
    rcases le_or_lt 0 (accumulated + dt) with hnn | hneg
    · have hfl : (0 : ℤ) ≤ ⌊(accumulated + dt) / fixedDelta⌋ :=
        Int.floor_nonneg.mpr (div_nonneg hnn (le_of_lt h))
      have hn : ((⌊(accumulated + dt) / fixedDelta⌋.toNat : ℤ)) =
          ⌊(accumulated + dt) / fixedDelta⌋ := Int.toNat_of_nonneg hfl
      have hcast : ((⌊(accumulated + dt) / fixedDelta⌋.toNat : ℕ) : ℚ) =
          ((⌊(accumulated + dt) / fixedDelta⌋ : ℤ) : ℚ) := by exact_mod_cast hn
      rw [hcast]
      have hlt : (accumulated + dt) / fixedDelta <
          (⌊(accumulated + dt) / fixedDelta⌋ : ℚ) + 1 :=
        Int.lt_floor_add_one _
      have := (div_lt_iff h).mp hlt
      linarith
    · have hfl : ⌊(accumulated + dt) / fixedDelta⌋ ≤ 0 := by
        apply Int.floor_nonpos
        exact le_of_lt (div_neg_of_neg_of_pos hneg h)
      have : (⌊(accumulated + dt) / fixedDelta⌋).toNat = 0 := Int.toNat_of_nonpos hfl
      rw [this]
      push_cast
      linarith
  refine ⟨?_, rfl, ?_, ?_, ?_, ?_⟩ <;>
    simp [GameLoop.frame, GameLoop.updateLoop, GameLoop.errSilenced, s1, s2, s3,
      hinv, hrem]

/-- A concrete three-callback frame for the loop: the middle callback throws
on every invocation. -/
def throwingCbs : List (ℕ → ℕ × Option ℕ) :=
  [fun n => (n + 1, none), fun n => (n, some 7), fun n => (n * 2, none)]

theorem gameLoop_isolates_callback_failures_witness :
    (GameLoop.frame (1 / 60) throwingCbs
        (some (fun n => (n + 5, none))) false 0 (1 / 30) 0).invoked =
      (GameLoop.frame (1 / 60) throwingCbs
        (some (fun n => (n + 5, none))) false 0 (1 / 30) 0).steps *
        throwingCbs.length ∧
    (GameLoop.frame (1 / 60) throwingCbs
        (some (fun n => (n + 5, none))) false 0 (1 / 30) 0).rendered = true :=
  ⟨(gameLoop_isolates_callback_failures (1 / 60) throwingCbs
      (fun n => (n + 5, none)) 0 (1 / 30) 0 (by norm_num)).1,
   (gameLoop_isolates_callback_failures (1 / 60) throwingCbs
      (fun n => (n + 5, none)) 0 (1 / 30) 0 (by norm_num)).2.1⟩

end EscapeRoad
